import Mathlib

set_option linter.unnecessarySeqFocus false
set_option maxRecDepth 40000
set_option maxHeartbeats 1000000

/-!
Shallow embedding of the zebec wormhole messenger program
(solana-project/programs/solana-project/src/lib.rs).

Bytes are modelled as natural numbers, byte buffers as lists of naturals,
public keys as lists of naturals.  Machine integers (u64) are naturals with
explicit overflow checks mirroring checked_add.  Each program entrypoint is a
function from the account state to an ExecOut record carrying the working
state at the point the handler returned, an optional error (a typed
MessengerError, a deserialization failure, an external-call failure, or a
crash corresponding to a Rust panic), and the downstream cross-program
invocation it attempted, if any.  The commit function applies the execution
environment rollback: a failed invocation leaves the persisted state
unchanged, per the stated environment guarantee.
-/

namespace Zebec

/-- A public key, modelled as its byte list. -/
abbrev Pubkey := List Nat

/-- Big-endian interpretation of a byte list (u64::from_be_bytes and the
get_u8 zero-extension both reduce to this). -/
def beNat (b : List Nat) : Nat := b.foldl (fun acc x => acc * 256 + x) 0

/-- Little-endian interpretation of a byte list (borsh integer layout). -/
def leNat (b : List Nat) : Nat := b.foldr (fun x acc => acc * 256 + x) 0

/-- Big-endian byte encoding of a natural into a fixed width. -/
def beBytes : Nat → Nat → List Nat
  | 0, _ => []
  | w + 1, n => beBytes w (n / 256) ++ [n % 256]

/-- Rust range slicing buf[a..b]: defined only when a ≤ b ≤ len, a panic
otherwise, so the model returns an Option. -/
def sliceChecked (l : List Nat) (a b : Nat) : Option (List Nat) :=
  if a ≤ b ∧ b ≤ l.length then some ((l.drop a).take (b - a)) else none

/-- get_u64 from the source: big-endian u64 of an (always 8-byte) slice. -/
def get_u64 (b : List Nat) : Nat := beNat b

/-- get_u8 from the source: the byte zero-extended to u64. -/
def get_u8 (b : List Nat) : Nat := beNat b

/-- get_u256 from the source: big-endian wide integer of a 32-byte slice. -/
def get_u256 (b : List Nat) : Nat := beNat b

/-- u64::checked_add(1): none exactly when the value is at u64::MAX. -/
def checkedAdd64 (n : Nat) : Option Nat :=
  if n < 2 ^ 64 - 1 then some (n + 1) else none

/-- Value of a single hexadecimal digit character, if it is one. -/
def hexDigitVal (c : Char) : Option Nat :=
  if 48 ≤ c.toNat ∧ c.toNat ≤ 57 then some (c.toNat - 48)
  else if 97 ≤ c.toNat ∧ c.toNat ≤ 102 then some (c.toNat - 87)
  else if 65 ≤ c.toNat ∧ c.toNat ≤ 70 then some (c.toNat - 55)
  else none

/-- hex::decode on a character list: pairs of hex digits to bytes; fails on a
non-hex character or an odd length. -/
def hexDecodeChars : List Char → Option (List Nat)
  | [] => some []
  | [_] => none
  | c1 :: c2 :: rest =>
    match hexDigitVal c1, hexDigitVal c2, hexDecodeChars rest with
    | some h, some l, some r => some ((16 * h + l) :: r)
    | _, _, _ => none

/-- hex::decode on a string. -/
def hexDecode (s : String) : Option (List Nat) := hexDecodeChars s.data

/-- Decimal ASCII bytes of a natural, as produced by u64::to_string. -/
def decimalBytes (n : Nat) : List Nat := (toString n).data.map Char.toNat

/-- ASCII bytes of a string literal. -/
def strBytes (s : String) : List Nat := s.data.map Char.toNat

/-- Pubkey::find_program_address, modelled as a collision-free deterministic
derivation: the seeds are concatenated with length prefixes after the program
id, which makes the derivation injective in each fixed-length seed.  The bump
is modelled as the constant 255.  The real derivation is a hash chain in the
external SDK; the model keeps exactly the properties the program relies on:
determinism and seed-order sensitivity. -/
def find_program_address (seeds : List (List Nat)) (pid : Pubkey) : Pubkey × Nat :=
  (pid ++ (seeds.map (fun s => s.length :: s)).foldr (· ++ ·) [], 255)

/-- Pubkey::new on a 32-byte buffer. -/
def pubkey_new (b : List Nat) : Pubkey := b

/-- The program id of this program itself (declare_id constant). -/
def selfProgramId : Pubkey := strBytes "GtyAQgcYTGso352pgR7T8tfESe3TGE5eUkEj9dYyrypS"

/-- The external core bridge program id (CORE_BRIDGE_ADDRESS constant). -/
def coreBridgeId : Pubkey := strBytes "CoreBridgeAddress"

/-- Modelled from the spec: EVM_CHAIN_ADDRESS_LENGTH lives in the missing
constants.rs.  The spec scenario registers a 64-hex-character emitter
(32 bytes, the wormhole emitter width compared against the 32-byte
vaa.emitter_address), so the required string length is 64. -/
def EVM_CHAIN_ADDRESS_LENGTH : Nat := 64

/-- The message record deserialized from the core bridge VAA account
(MessageData from the missing wormhole.rs, fields as serialized by
serialize_vaa). -/
structure MessageData where
  vaa_time : Nat
  nonce : Nat
  emitter_chain : Nat
  emitter_address : List Nat
  sequence : Nat
  consistency_level : Nat
  payload : List Nat
deriving DecidableEq, Repr

/-- serialize_vaa from the source: the canonical big-endian serialization of
the message fields. -/
def serialize_vaa (vaa : MessageData) : List Nat :=
  beBytes 4 vaa.vaa_time ++ beBytes 4 vaa.nonce ++ beBytes 2 vaa.emitter_chain ++
    vaa.emitter_address ++ beBytes 8 vaa.sequence ++ [vaa.consistency_level % 256] ++ vaa.payload

/-- The deterministic PostedVAA account address the core bridge assigns to a
message: derived from the seed "PostedVAA" and the message hash.  The keccak
hash is modelled as the injective serialization itself (a collision-free
idealization of the hash). -/
def vaa_key_of (vaa : MessageData) : Pubkey :=
  (find_program_address [strBytes "PostedVAA", serialize_vaa vaa] coreBridgeId).1

/-- The error enum of the program (errors.rs variants referenced by lib.rs). -/
inductive MessengerError where
  | InvalidEmitterAddress
  | VAAKeyMismatch
  | VAAEmitterMismatch
  | InvalidPayload
  | Overflow
  | InvalidSenderWallet
  | MintKeyMismatch
  | DataAccountMismatch
  | PdaSenderMismatch
  | PdaReceiverMismatch
  | SenderDerivedKeyMismatch
  | ReceiverDerivedKeyMismatch
  | AmountMismatch
  | StartTimeMismatch
  | EndTimeMismatch
  | CanCancelMismatch
  | CanUpdateMismatch
  | TransactionAlreadyCreated
  | TransactionAlreadyExecuted
  | AlreadyExecuted
  | InvalidCPI
  | InvalidCaller
deriving DecidableEq, Repr

/-- How an invocation can fail: a typed program error, a borsh
deserialization failure propagated by the question-mark operator, a failure
of an external call, or a Rust panic (crash). -/
inductive ProgError where
  | msgErr (e : MessengerError)
  | deserializeErr
  | externalErr
  | accountInUse
  | crash
deriving DecidableEq, Repr

/-- Configuration account: administrative owner and outbound nonce. -/
structure Config where
  owner : Pubkey
  nonce : Nat
deriving DecidableEq, Repr

/-- EmitterRegistration account: chain id and registered emitter hex string. -/
structure EmitterAcc where
  chain_id : Nat
  emitter_addr : String
deriving DecidableEq, Repr

/-- TransactionCounter account. -/
structure TxnCount where
  count : Nat
deriving DecidableEq, Repr

/-- StagedOperation account (data_storage): decoded fields of the latest
accepted inbound message. -/
structure DataStorage where
  amount : Nat
  sender : List Nat
  receiver : List Nat
  from_chain_id : Nat
  token_mint : Pubkey
  start_time : Nat
  end_time : Nat
  can_update : Bool
  can_cancel : Bool
  data_account : Pubkey
deriving DecidableEq, Repr

/-- One account entry of a staged transaction. -/
structure TransactionAccount where
  pubkey : Pubkey
  is_signer : Bool
  is_writable : Bool
deriving DecidableEq, Repr

/-- StagedTransaction account. -/
structure Transaction where
  program_id : Pubkey
  accounts : List TransactionAccount
  data : List Nat
  did_execute : Bool
deriving DecidableEq, Repr

/-- ExecutionStatus guard account (txn_status). -/
structure TxnStatus where
  executed : Bool
deriving DecidableEq, Repr

/-- The combined persistent account state one logical action touches.
config_initialized is modelled from the spec: the Configuration account is
created once by the initialize entrypoint (an account-init constraint in the
missing context.rs); a second initialize fails at the ledger level. -/
structure GState where
  config : Config
  config_initialized : Bool
  emitter_acc : EmitterAcc
  txn_count : TxnCount
  data_storage : DataStorage
  txn_status : TxnStatus
  transaction : Transaction
deriving DecidableEq, Repr

/-- The downstream instruction as rebuilt by perform_cpi. -/
structure BuiltInstruction where
  program_id : Pubkey
  accounts : List TransactionAccount
  data : List Nat
deriving DecidableEq, Repr

/-- A downstream invocation attempt: the instruction and the signer seeds. -/
structure CpiCall where
  ix : BuiltInstruction
  seeds : List (List Nat)
deriving DecidableEq, Repr

/-- Result of running one entrypoint: the working state at return time, the
error if any, and the downstream invocation attempted, if any. -/
structure ExecOut where
  state : GState
  error : Option ProgError
  cpi : Option CpiCall
deriving DecidableEq, Repr

def eOk (g : GState) : ExecOut := ⟨g, none, none⟩

def eFail (g : GState) (e : MessengerError) : ExecOut := ⟨g, some (.msgErr e), none⟩

def eCrash (g : GState) : ExecOut := ⟨g, some .crash, none⟩

/-- The execution environment commit rule: on any error the whole invocation
aborts and the persisted account state is the pre-invocation state (atomic
rollback, as the spec states for the environment); on success the working
state is persisted. -/
def commitOut (g0 : GState) (r : ExecOut) : GState :=
  match r.error with
  | none => r.state
  | some _ => g0

/-- process_deposit (opcode 6 handler): decodes amount, to-chain, sender and
mint at the deposit offsets, writes them to data_storage, then checks the
embedded sender against the caller-authenticated sender. -/
def process_deposit (enc : List Nat) (fromChain : Nat) (g : GState) (sender : List Nat) : ExecOut :=
  match sliceChecked enc 1 9, sliceChecked enc 9 41,
        sliceChecked enc 41 73, sliceChecked enc 73 105 with
  | some amountB, some _toChainB, some senderB, some mintB =>
    let ds := g.data_storage
    let ds := { ds with amount := get_u64 amountB, sender := senderB,
                        from_chain_id := fromChain, token_mint := pubkey_new mintB }
    let g2 := { g with data_storage := ds }
    if senderB = sender then eOk g2 else eFail g2 .InvalidSenderWallet
  | _, _, _, _ => eCrash g

/-- process_stream (opcode 2 handler): the stream-create payload layout. -/
def process_stream (enc : List Nat) (fromChain : Nat) (g : GState) (sender : List Nat) : ExecOut :=
  match sliceChecked enc 1 9, sliceChecked enc 9 17, sliceChecked enc 17 25,
        sliceChecked enc 25 57, sliceChecked enc 57 89, sliceChecked enc 89 121,
        sliceChecked enc 121 129, sliceChecked enc 129 137, sliceChecked enc 137 169 with
  | some startB, some endB, some amountB, some _toChainB, some senderB,
      some receiverB, some cuB, some ccB, some mintB =>
    let ds := g.data_storage
    let ds := { ds with start_time := get_u64 startB, end_time := get_u64 endB,
                        can_update := get_u64 cuB = 1, can_cancel := get_u64 ccB = 1,
                        amount := get_u64 amountB, sender := senderB, receiver := receiverB,
                        from_chain_id := fromChain, token_mint := pubkey_new mintB }
    let g2 := { g with data_storage := ds }
    if senderB = sender then eOk g2 else eFail g2 .InvalidSenderWallet
  | _, _, _, _, _, _, _, _, _ => eCrash g

/-- process_update_stream (opcode 14 handler). -/
def process_update_stream (enc : List Nat) (fromChain : Nat) (g : GState) (sender : List Nat) : ExecOut :=
  match sliceChecked enc 1 9, sliceChecked enc 9 17, sliceChecked enc 17 25,
        sliceChecked enc 25 57, sliceChecked enc 57 89, sliceChecked enc 89 121,
        sliceChecked enc 121 153, sliceChecked enc 153 185 with
  | some startB, some endB, some amountB, some _toChainB, some senderB,
      some receiverB, some mintB, some dataAccB =>
    let ds := g.data_storage
    let ds := { ds with start_time := get_u64 startB, end_time := get_u64 endB,
                        amount := get_u64 amountB, sender := senderB, receiver := receiverB,
                        from_chain_id := fromChain, token_mint := pubkey_new mintB,
                        data_account := pubkey_new dataAccB }
    let g2 := { g with data_storage := ds }
    if senderB = sender then eOk g2 else eFail g2 .InvalidSenderWallet
  | _, _, _, _, _, _, _, _ => eCrash g

/-- process_pause (opcode 8 handler). -/
def process_pause (enc : List Nat) (fromChain : Nat) (g : GState) (sender : List Nat) : ExecOut :=
  match sliceChecked enc 1 33, sliceChecked enc 33 65, sliceChecked enc 65 97,
        sliceChecked enc 97 129, sliceChecked enc 129 161 with
  | some _toChainB, some depositorB, some mintB, some receiverB, some dataAccB =>
    let ds := g.data_storage
    let ds := { ds with sender := depositorB, receiver := receiverB,
                        from_chain_id := fromChain, token_mint := pubkey_new mintB,
                        data_account := pubkey_new dataAccB }
    let g2 := { g with data_storage := ds }
    if depositorB = sender then eOk g2 else eFail g2 .InvalidSenderWallet
  | _, _, _, _, _ => eCrash g

/-- process_withdraw_stream (opcode 4 handler): the caller-authenticated
identity is the stream receiver (withdrawer). -/
def process_withdraw_stream (enc : List Nat) (fromChain : Nat) (g : GState) (receiver : List Nat) : ExecOut :=
  match sliceChecked enc 1 33, sliceChecked enc 33 65, sliceChecked enc 65 97,
        sliceChecked enc 97 129, sliceChecked enc 129 161 with
  | some _toChainB, some withdrawerB, some mintB, some depositorB, some dataAccB =>
    let ds := g.data_storage
    let ds := { ds with sender := depositorB, receiver := withdrawerB,
                        from_chain_id := fromChain, token_mint := pubkey_new mintB,
                        data_account := pubkey_new dataAccB }
    let g2 := { g with data_storage := ds }
    if withdrawerB = receiver then eOk g2 else eFail g2 .InvalidSenderWallet
  | _, _, _, _, _ => eCrash g

/-- process_cancel_stream (opcode 16 handler). -/
def process_cancel_stream (enc : List Nat) (fromChain : Nat) (g : GState) (sender : List Nat) : ExecOut :=
  match sliceChecked enc 1 33, sliceChecked enc 33 65, sliceChecked enc 65 97,
        sliceChecked enc 97 129, sliceChecked enc 129 161 with
  | some _toChainB, some depositorB, some mintB, some receiverB, some dataAccB =>
    let ds := g.data_storage
    let ds := { ds with sender := depositorB, receiver := receiverB,
                        from_chain_id := fromChain, token_mint := pubkey_new mintB,
                        data_account := pubkey_new dataAccB }
    let g2 := { g with data_storage := ds }
    if depositorB = sender then eOk g2 else eFail g2 .InvalidSenderWallet
  | _, _, _, _, _ => eCrash g

/-- process_withdraw (opcode 10 handler). -/
def process_withdraw (enc : List Nat) (fromChain : Nat) (g : GState) (sender : List Nat) : ExecOut :=
  match sliceChecked enc 1 9, sliceChecked enc 9 41,
        sliceChecked enc 41 73, sliceChecked enc 73 105 with
  | some amountB, some _toChainB, some withdrawerB, some mintB =>
    let ds := g.data_storage
    let ds := { ds with sender := withdrawerB, from_chain_id := fromChain,
                        token_mint := pubkey_new mintB, amount := get_u64 amountB }
    let g2 := { g with data_storage := ds }
    if withdrawerB = sender then eOk g2 else eFail g2 .InvalidSenderWallet
  | _, _, _, _ => eCrash g

/-- process_instant_transfer (opcode 12 handler). -/
def process_instant_transfer (enc : List Nat) (fromChain : Nat) (g : GState) (sender : List Nat) : ExecOut :=
  match sliceChecked enc 1 9, sliceChecked enc 9 41, sliceChecked enc 41 73,
        sliceChecked enc 73 105, sliceChecked enc 105 137 with
  | some amountB, some _toChainB, some senderB, some mintB, some withdrawerB =>
    let ds := g.data_storage
    let ds := { ds with sender := senderB, receiver := withdrawerB,
                        from_chain_id := fromChain, token_mint := pubkey_new mintB,
                        amount := get_u64 amountB }
    let g2 := { g with data_storage := ds }
    if senderB = sender then eOk g2 else eFail g2 .InvalidSenderWallet
  | _, _, _, _, _ => eCrash g

/-- process_direct_transfer (opcode 17 handler): identical layout to the
instant transfer handler. -/
def process_direct_transfer (enc : List Nat) (fromChain : Nat) (g : GState) (sender : List Nat) : ExecOut :=
  match sliceChecked enc 1 9, sliceChecked enc 9 41, sliceChecked enc 41 73,
        sliceChecked enc 73 105, sliceChecked enc 105 137 with
  | some amountB, some _toChainB, some senderB, some mintB, some withdrawerB =>
    let ds := g.data_storage
    let ds := { ds with sender := senderB, receiver := withdrawerB,
                        from_chain_id := fromChain, token_mint := pubkey_new mintB,
                        amount := get_u64 amountB }
    let g2 := { g with data_storage := ds }
    if senderB = sender then eOk g2 else eFail g2 .InvalidSenderWallet
  | _, _, _, _, _ => eCrash g

/-- The opcode dispatch of store_msg. -/
def dispatch_code (code : Nat) (enc : List Nat) (fromChain : Nat) (g : GState) (sender : List Nat) : ExecOut :=
  match code with
  | 2 => process_stream enc fromChain g sender
  | 4 => process_withdraw_stream enc fromChain g sender
  | 6 => process_deposit enc fromChain g sender
  | 8 => process_pause enc fromChain g sender
  | 10 => process_withdraw enc fromChain g sender
  | 12 => process_instant_transfer enc fromChain g sender
  | 14 => process_update_stream enc fromChain g sender
  | 16 => process_cancel_stream enc fromChain g sender
  | 17 => process_direct_transfer enc fromChain g sender
  | _ => eFail g .InvalidPayload

/-- store_msg: VAA key check, emitter registry check (with the short-circuit
conjunction whose right operand unwraps the hex decode of the registered
emitter address, a panic on a non-hex registration), opcode read from payload
byte 0 (a panic on an empty payload), counter increment, dispatch. -/
def store_msg (g : GState) (vaa : MessageData) (vaaAccKey : Pubkey) (sender : List Nat) : ExecOut :=
  if vaaAccKey = vaa_key_of vaa then
    if vaa.emitter_chain = g.emitter_acc.chain_id then
      match hexDecode g.emitter_acc.emitter_addr with
      | none => eCrash g
      | some regBytes =>
        if vaa.emitter_address = regBytes then
          match sliceChecked vaa.payload 0 1 with
          | none => eCrash g
          | some codeBytes =>
            let code := get_u8 codeBytes
            match checkedAdd64 g.txn_count.count with
            | none => eFail g .Overflow
            | some val =>
              dispatch_code code vaa.payload vaa.emitter_chain
                { g with txn_count := ⟨val⟩ } sender
        else eFail g .VAAEmitterMismatch
    else eFail g .VAAEmitterMismatch
  else eFail g .VAAKeyMismatch

/-- The Stream instruction-argument record checked by
create_transaction_stream. -/
structure StreamData where
  amount : Nat
  start_time : Nat
  end_time : Nat
  can_cancel : Bool
  can_update : Bool
deriving DecidableEq, Repr

/-- The TokenAmount instruction-argument record. -/
structure TokenAmount where
  amount : Nat
deriving DecidableEq, Repr

/-- The StreamUpdate instruction-argument record. -/
structure StreamUpdateData where
  amount : Nat
  start_time : Nat
  end_time : Nat
deriving DecidableEq, Repr

/-- Borsh boolean byte: 0 or 1, anything else is a decode failure. -/
def decodeBool (n : Nat) : Option Bool :=
  if n = 0 then some false else if n = 1 then some true else none

/-- Modelled from the spec: Stream::try_from_slice.  The Stream struct lives
in the missing state.rs; the spec fixes its fields (amount and the
start/end/flag fields cross-checked by the create call) and borsh fixes the
wire format as little-endian u64s followed by single-byte booleans, consuming
the whole buffer.  Field order in the record is taken as start_time,
end_time, amount, can_cancel, can_update. -/
def decodeStream (b : List Nat) : Option StreamData :=
  if b.length = 26 then
    match decodeBool (b.getD 24 0), decodeBool (b.getD 25 0) with
    | some cc, some cu =>
      some ⟨leNat ((b.drop 16).take 8), leNat (b.take 8), leNat ((b.drop 8).take 8), cc, cu⟩
    | _, _ => none
  else none

/-- Modelled from the spec: TokenAmount::try_from_slice, a single
little-endian u64 consuming the whole buffer (state.rs is missing). -/
def decodeTokenAmount (b : List Nat) : Option TokenAmount :=
  if b.length = 8 then some ⟨leNat b⟩ else none

/-- Modelled from the spec: StreamUpdate::try_from_slice, three little-endian
u64s consuming the whole buffer (state.rs is missing), in the order
start_time, end_time, amount. -/
def decodeStreamUpdate (b : List Nat) : Option StreamUpdateData :=
  if b.length = 24 then
    some ⟨leNat ((b.drop 16).take 8), leNat (b.take 8), leNat ((b.drop 8).take 8)⟩
  else none

/-- The staging write every create / create-and-execute call performs up
front: program id, account list and instruction bytes into the
StagedTransaction; the creates pass did_execute false, the
create-and-execute calls leave the stored flag as it was. -/
def stageTx (g : GState) (pid : Pubkey) (accs : List TransactionAccount)
    (data : List Nat) (de : Bool) : GState :=
  { g with transaction := { program_id := pid, accounts := accs, data := data, did_execute := de } }

/-- The chain-id seed every derivation uses: the decimal-string bytes of the
stored from_chain_id. -/
def chainSeedOf (g : GState) : List Nat := decimalBytes g.data_storage.from_chain_id

/-- The instruction and signer seeds perform_cpi passes to invoke_signed:
the staged instruction with every account whose pubkey equals the passed
pda_signer marked as a signer, signed with seeds
(identity bytes, chain id bytes, bump). -/
def perform_cpi_call (t : Transaction) (ethAdd chainId : List Nat) (pdaSigner : Pubkey) : CpiCall :=
  { ix := { program_id := t.program_id,
            accounts := t.accounts.map
              (fun a => if a.pubkey = pdaSigner then { a with is_signer := true } else a),
            data := t.data },
    seeds := [ethAdd, chainId, [(find_program_address [ethAdd, chainId] selfProgramId).2]] }

/-- The latch-and-invoke tail shared by the create-and-execute calls: set
did_execute (the one-shot latch) and attempt the downstream invocation. -/
def burn_and_invoke (g : GState) (ethAdd chainId : List Nat) (pdaSigner : Pubkey)
    (ext : Bool) : ExecOut :=
  if ext then
    ⟨{ g with transaction := { g.transaction with did_execute := true } }, none,
      some (perform_cpi_call { g.transaction with did_execute := true } ethAdd chainId pdaSigner)⟩
  else
    ⟨{ g with transaction := { g.transaction with did_execute := true } },
      some (.msgErr .InvalidCPI),
      some (perform_cpi_call { g.transaction with did_execute := true } ethAdd chainId pdaSigner)⟩

/-- The post-staging checks of create_transaction_stream: mint at position
9, sender bytes, derived sender at 5, derived receiver at 6, then the
instruction-data cross-check against the StagedOperation. -/
def create_transaction_stream_checks (g : GState) (accs : List TransactionAccount)
    (data sender : List Nat) : ExecOut :=
  match accs.get? 9 with
  | none => eCrash g
  | some a9 =>
    if a9.pubkey = g.data_storage.token_mint then
      match accs.get? 5 with
      | none => eCrash g
      | some a5 =>
        if sender = g.data_storage.sender then
          match accs.get? 6 with
          | none => eCrash g
          | some a6 =>
            if a5.pubkey = (find_program_address [sender, chainSeedOf g] selfProgramId).1 then
              if a6.pubkey =
                  (find_program_address [g.data_storage.receiver, chainSeedOf g]
                    selfProgramId).1 then
                if 8 ≤ data.length then
                  match decodeStream (data.drop 8) with
                  | none => ⟨g, some .deserializeErr, none⟩
                  | some d =>
                    if d.amount = g.data_storage.amount then
                      if d.start_time = g.data_storage.start_time then
                        if d.end_time = g.data_storage.end_time then
                          if d.can_cancel = g.data_storage.can_cancel then
                            if d.can_update = g.data_storage.can_update then eOk g
                            else eFail g .CanUpdateMismatch
                          else eFail g .CanCancelMismatch
                        else eFail g .EndTimeMismatch
                      else eFail g .StartTimeMismatch
                    else eFail g .AmountMismatch
                else eCrash g
              else eFail g .ReceiverDerivedKeyMismatch
            else eFail g .SenderDerivedKeyMismatch
        else eFail g .PdaSenderMismatch
    else eFail g .MintKeyMismatch

/-- create_transaction_stream: guard on ExecutionStatus, stage the
transaction (did_execute := false), then the checks. -/
def create_transaction_stream (g0 : GState) (pid : Pubkey) (accs : List TransactionAccount)
    (data : List Nat) (sender : List Nat) : ExecOut :=
  if g0.txn_status.executed then eFail g0 .TransactionAlreadyCreated
  else create_transaction_stream_checks (stageTx g0 pid accs data false) accs data sender

/-- The post-staging checks of create_transaction_cancel: mint at 12, data
account at 6, sender bytes, derived sender at 2, derived receiver at 1; no
instruction-data decode. -/
def create_transaction_cancel_checks (g : GState) (accs : List TransactionAccount)
    (sender : List Nat) : ExecOut :=
  match accs.get? 12 with
  | none => eCrash g
  | some a12 =>
    if a12.pubkey = g.data_storage.token_mint then
      match accs.get? 6 with
      | none => eCrash g
      | some a6 =>
        if a6.pubkey = g.data_storage.data_account then
          match accs.get? 2 with
          | none => eCrash g
          | some a2 =>
            if sender = g.data_storage.sender then
              match accs.get? 1 with
              | none => eCrash g
              | some a1 =>
                if a2.pubkey = (find_program_address [sender, chainSeedOf g] selfProgramId).1 then
                  if a1.pubkey =
                      (find_program_address [g.data_storage.receiver, chainSeedOf g]
                        selfProgramId).1 then
                    eOk g
                  else eFail g .ReceiverDerivedKeyMismatch
                else eFail g .SenderDerivedKeyMismatch
            else eFail g .PdaSenderMismatch
        else eFail g .DataAccountMismatch
    else eFail g .MintKeyMismatch

/-- create_transaction_cancel: stages the transaction and performs the
checks; note the instruction data is stored but never decoded. -/
def create_transaction_cancel (g0 : GState) (pid : Pubkey) (accs : List TransactionAccount)
    (data : List Nat) (sender : List Nat) : ExecOut :=
  if g0.txn_status.executed then eFail g0 .TransactionAlreadyCreated
  else create_transaction_cancel_checks (stageTx g0 pid accs data false) accs sender

/-- The post-staging checks of create_transaction_receiver_withdraw: the
caller-authenticated identity is compared against the stored receiver, both
derived addresses come from the stored identities; no instruction-data
decode. -/
def create_transaction_receiver_withdraw_checks (g : GState) (accs : List TransactionAccount)
    (sender : List Nat) : ExecOut :=
  match accs.get? 12 with
  | none => eCrash g
  | some a12 =>
    if a12.pubkey = g.data_storage.token_mint then
      match accs.get? 6 with
      | none => eCrash g
      | some a6 =>
        if a6.pubkey = g.data_storage.data_account then
          match accs.get? 2 with
          | none => eCrash g
          | some a2 =>
            match accs.get? 1 with
            | none => eCrash g
            | some a1 =>
              if sender = g.data_storage.receiver then
                if a2.pubkey =
                    (find_program_address [g.data_storage.sender, chainSeedOf g]
                      selfProgramId).1 then
                  if a1.pubkey =
                      (find_program_address [g.data_storage.receiver, chainSeedOf g]
                        selfProgramId).1 then
                    eOk g
                  else eFail g .ReceiverDerivedKeyMismatch
                else eFail g .SenderDerivedKeyMismatch
              else eFail g .PdaReceiverMismatch
        else eFail g .DataAccountMismatch
    else eFail g .MintKeyMismatch

/-- create_transaction_receiver_withdraw: staging plus the checks above. -/
def create_transaction_receiver_withdraw (g0 : GState) (pid : Pubkey)
    (accs : List TransactionAccount) (data : List Nat) (sender : List Nat) : ExecOut :=
  if g0.txn_status.executed then eFail g0 .TransactionAlreadyCreated
  else create_transaction_receiver_withdraw_checks (stageTx g0 pid accs data false) accs sender

/-- The post-staging checks of create_transaction_sender_withdraw: mint at
position 7, sender bytes, derived sender at 2, then the TokenAmount
cross-check. -/
def create_transaction_sender_withdraw_checks (g : GState) (accs : List TransactionAccount)
    (data sender : List Nat) : ExecOut :=
  match accs.get? 7 with
  | none => eCrash g
  | some a7 =>
    if a7.pubkey = g.data_storage.token_mint then
      match accs.get? 2 with
      | none => eCrash g
      | some a2 =>
        if sender = g.data_storage.sender then
          if a2.pubkey = (find_program_address [sender, chainSeedOf g] selfProgramId).1 then
            if 8 ≤ data.length then
              match decodeTokenAmount (data.drop 8) with
              | none => ⟨g, some .deserializeErr, none⟩
              | some d =>
                if d.amount = g.data_storage.amount then eOk g
                else eFail g .AmountMismatch
            else eCrash g
          else eFail g .SenderDerivedKeyMismatch
        else eFail g .PdaSenderMismatch
    else eFail g .MintKeyMismatch

/-- create_transaction_sender_withdraw: staging plus the checks above. -/
def create_transaction_sender_withdraw (g0 : GState) (pid : Pubkey)
    (accs : List TransactionAccount) (data : List Nat) (sender : List Nat) : ExecOut :=
  if g0.txn_status.executed then eFail g0 .TransactionAlreadyCreated
  else create_transaction_sender_withdraw_checks (stageTx g0 pid accs data false) accs data sender

/-- The post-staging checks of create_transaction_instant_transfer: mint at
position 8, sender bytes, derived sender at 2, derived receiver at 1, then
the TokenAmount cross-check. -/
def create_transaction_instant_transfer_checks (g : GState) (accs : List TransactionAccount)
    (data sender : List Nat) : ExecOut :=
  match accs.get? 8 with
  | none => eCrash g
  | some a8 =>
    if a8.pubkey = g.data_storage.token_mint then
      match accs.get? 2 with
      | none => eCrash g
      | some a2 =>
        if sender = g.data_storage.sender then
          match accs.get? 1 with
          | none => eCrash g
          | some a1 =>
            if a2.pubkey = (find_program_address [sender, chainSeedOf g] selfProgramId).1 then
              if a1.pubkey =
                  (find_program_address [g.data_storage.receiver, chainSeedOf g]
                    selfProgramId).1 then
                if 8 ≤ data.length then
                  match decodeTokenAmount (data.drop 8) with
                  | none => ⟨g, some .deserializeErr, none⟩
                  | some d =>
                    if d.amount = g.data_storage.amount then eOk g
                    else eFail g .AmountMismatch
                else eCrash g
              else eFail g .ReceiverDerivedKeyMismatch
            else eFail g .SenderDerivedKeyMismatch
        else eFail g .PdaSenderMismatch
    else eFail g .MintKeyMismatch

/-- create_transaction_instant_transfer: staging plus the checks above. -/
def create_transaction_instant_transfer (g0 : GState) (pid : Pubkey)
    (accs : List TransactionAccount) (data : List Nat) (sender : List Nat) : ExecOut :=
  if g0.txn_status.executed then eFail g0 .TransactionAlreadyCreated
  else create_transaction_instant_transfer_checks (stageTx g0 pid accs data false) accs data sender

/-- execute_transaction: latch ExecutionStatus.executed, then the
did_execute one-shot latch, set before the downstream invocation; the
caller-supplied eth_add and from_chain_id go straight into the signer seeds.
The ext flag models whether the downstream invocation succeeds. -/
def execute_transaction (g0 : GState) (ethAdd fromChainId : List Nat)
    (pdaSigner : Pubkey) (ext : Bool) : ExecOut :=
  if g0.txn_status.executed then eFail g0 .TransactionAlreadyExecuted
  else if g0.transaction.did_execute then
    eFail { g0 with txn_status := ⟨true⟩ } .AlreadyExecuted
  else burn_and_invoke { g0 with txn_status := ⟨true⟩ } ethAdd fromChainId pdaSigner ext

/-- The post-staging checks of transaction_deposit: mint at position 6,
sender bytes, derived sender at position 1, the TokenAmount cross-check,
then latch-and-invoke. -/
def transaction_deposit_checks (g : GState) (accs : List TransactionAccount)
    (data chainId sender : List Nat) (pdaSigner : Pubkey) (ext : Bool) : ExecOut :=
  match accs.get? 6 with
  | none => eCrash g
  | some a6 =>
    if a6.pubkey = g.data_storage.token_mint then
      match accs.get? 1 with
      | none => eCrash g
      | some a1 =>
        if sender = g.data_storage.sender then
          if a1.pubkey = (find_program_address [sender, chainSeedOf g] selfProgramId).1 then
            if 8 ≤ data.length then
              match decodeTokenAmount (data.drop 8) with
              | none => ⟨g, some .deserializeErr, none⟩
              | some d =>
                if d.amount = g.data_storage.amount then
                  burn_and_invoke g sender chainId pdaSigner ext
                else eFail g .AmountMismatch
            else eCrash g
          else eFail g .SenderDerivedKeyMismatch
        else eFail g .PdaSenderMismatch
    else eFail g .MintKeyMismatch

/-- transaction_deposit (create-and-execute): stages the transaction (the
stored did_execute flag is left as it was at staging time), then the checks
and the latch-and-invoke. -/
def transaction_deposit (g0 : GState) (pid : Pubkey) (accs : List TransactionAccount)
    (data : List Nat) (chainId : List Nat) (sender : List Nat)
    (pdaSigner : Pubkey) (ext : Bool) : ExecOut :=
  if g0.txn_status.executed then eFail g0 .TransactionAlreadyCreated
  else transaction_deposit_checks (stageTx g0 pid accs data g0.transaction.did_execute)
    accs data chainId sender pdaSigner ext

/-- The post-staging checks of transaction_stream_update. -/
def transaction_stream_update_checks (g : GState) (accs : List TransactionAccount)
    (data chainId sender : List Nat) (pdaSigner : Pubkey) (ext : Bool) : ExecOut :=
  match accs.get? 4 with
  | none => eCrash g
  | some a4 =>
    if a4.pubkey = g.data_storage.token_mint then
      match accs.get? 0 with
      | none => eCrash g
      | some a0 =>
        if a0.pubkey = g.data_storage.data_account then
          match accs.get? 2 with
          | none => eCrash g
          | some a2 =>
            if sender = g.data_storage.sender then
              match accs.get? 3 with
              | none => eCrash g
              | some a3 =>
                if a2.pubkey = (find_program_address [sender, chainSeedOf g] selfProgramId).1 then
                  if a3.pubkey =
                      (find_program_address [g.data_storage.receiver, chainSeedOf g]
                        selfProgramId).1 then
                    if 8 ≤ data.length then
                      match decodeStreamUpdate (data.drop 8) with
                      | none => ⟨g, some .deserializeErr, none⟩
                      | some d =>
                        if d.amount = g.data_storage.amount then
                          if d.start_time = g.data_storage.start_time then
                            if d.end_time = g.data_storage.end_time then
                              burn_and_invoke g sender chainId pdaSigner ext
                            else eFail g .EndTimeMismatch
                          else eFail g .StartTimeMismatch
                        else eFail g .AmountMismatch
                    else eCrash g
                  else eFail g .ReceiverDerivedKeyMismatch
                else eFail g .SenderDerivedKeyMismatch
            else eFail g .PdaSenderMismatch
        else eFail g .DataAccountMismatch
    else eFail g .MintKeyMismatch

/-- transaction_stream_update (create-and-execute). -/
def transaction_stream_update (g0 : GState) (pid : Pubkey) (accs : List TransactionAccount)
    (data : List Nat) (chainId : List Nat) (sender : List Nat)
    (pdaSigner : Pubkey) (ext : Bool) : ExecOut :=
  if g0.txn_status.executed then eFail g0 .TransactionAlreadyCreated
  else transaction_stream_update_checks (stageTx g0 pid accs data g0.transaction.did_execute)
    accs data chainId sender pdaSigner ext

/-- The post-staging checks of transaction_pause_resume: no mint check, no
instruction-data decode; data account at position 2, sender at 0, receiver
at 1. -/
def transaction_pause_resume_checks (g : GState) (accs : List TransactionAccount)
    (chainId sender : List Nat) (pdaSigner : Pubkey) (ext : Bool) : ExecOut :=
  match accs.get? 2 with
  | none => eCrash g
  | some a2 =>
    if a2.pubkey = g.data_storage.data_account then
      match accs.get? 0 with
      | none => eCrash g
      | some a0 =>
        if sender = g.data_storage.sender then
          match accs.get? 1 with
          | none => eCrash g
          | some a1 =>
            if a0.pubkey = (find_program_address [sender, chainSeedOf g] selfProgramId).1 then
              if a1.pubkey =
                  (find_program_address [g.data_storage.receiver, chainSeedOf g]
                    selfProgramId).1 then
                burn_and_invoke g sender chainId pdaSigner ext
              else eFail g .ReceiverDerivedKeyMismatch
            else eFail g .SenderDerivedKeyMismatch
        else eFail g .PdaSenderMismatch
    else eFail g .DataAccountMismatch

/-- transaction_pause_resume (create-and-execute). -/
def transaction_pause_resume (g0 : GState) (pid : Pubkey) (accs : List TransactionAccount)
    (data : List Nat) (chainId : List Nat) (sender : List Nat)
    (pdaSigner : Pubkey) (ext : Bool) : ExecOut :=
  if g0.txn_status.executed then eFail g0 .TransactionAlreadyCreated
  else transaction_pause_resume_checks (stageTx g0 pid accs data g0.transaction.did_execute)
    accs chainId sender pdaSigner ext

/-- The shared tail of transfer_native and transfer_wrapped: owner check,
token approval and portal invocation (external calls folded into the ext
flag), the 32-byte conversion of the receiver (a panic otherwise), and the
overflow-checked nonce increment. -/
def transfer_tail (g : GState) (receiver : List Nat) (zebecEoa : Pubkey) (ext : Bool) : ExecOut :=
  if g.config.owner = zebecEoa then
    if ext then
      if receiver.length = 32 then
        match checkedAdd64 g.config.nonce with
        | none => eFail g .Overflow
        | some v => eOk { g with config := { g.config with nonce := v } }
      else eCrash g
    else ⟨g, some .externalErr, none⟩
  else eFail g .InvalidCaller

/-- transfer_native: delegates a limited-amount approval and invokes the
portal transfer, then increments the nonce. -/
def transfer_native (g : GState) (_sender : List Nat) (_senderChain : List Nat)
    (_targetChain : Nat) (_fee : Nat) (receiver : List Nat) (zebecEoa : Pubkey)
    (ext : Bool) : ExecOut :=
  transfer_tail g receiver zebecEoa ext

/-- transfer_wrapped: same shape as transfer_native for the modelled state. -/
def transfer_wrapped (g : GState) (_sender : List Nat) (_senderChain : List Nat)
    (_targetChain : Nat) (_fee : Nat) (receiver : List Nat) (zebecEoa : Pubkey)
    (ext : Bool) : ExecOut :=
  transfer_tail g receiver zebecEoa ext

/-- transaction_direct_transfer_native: ExecutionStatus latch, mint check
(reported as DataAccountMismatch in the source), sender check, derived
signer check, then the native transfer with the stored receiver. -/
def transaction_direct_transfer_native_checks (g : GState) (sender : List Nat)
    (chainId : List Nat) (targetChain fee : Nat) (mintKey pdaSignerKey zebecEoa : Pubkey)
    (ext : Bool) : ExecOut :=
  if g.data_storage.token_mint = mintKey then
    if sender = g.data_storage.sender then
      if pdaSignerKey = (find_program_address [sender, chainSeedOf g] selfProgramId).1 then
        transfer_native g sender chainId targetChain fee g.data_storage.receiver zebecEoa ext
      else eFail g .SenderDerivedKeyMismatch
    else eFail g .PdaSenderMismatch
  else eFail g .DataAccountMismatch

def transaction_direct_transfer_native (g0 : GState) (sender : List Nat)
    (chainId : List Nat) (targetChain fee : Nat) (mintKey pdaSignerKey zebecEoa : Pubkey)
    (ext : Bool) : ExecOut :=
  if g0.txn_status.executed then eFail g0 .TransactionAlreadyExecuted
  else transaction_direct_transfer_native_checks { g0 with txn_status := ⟨true⟩ }
    sender chainId targetChain fee mintKey pdaSignerKey zebecEoa ext

/-- transaction_direct_transfer_wrapped: ExecutionStatus latch, sender check
(performed twice in the source), derived signer check, then the wrapped
transfer with the stored receiver. -/
def transaction_direct_transfer_wrapped_checks (g : GState) (sender : List Nat)
    (senderChain : List Nat) (targetChain fee : Nat) (pdaSignerKey zebecEoa : Pubkey)
    (ext : Bool) : ExecOut :=
  if sender = g.data_storage.sender then
    if pdaSignerKey = (find_program_address [sender, chainSeedOf g] selfProgramId).1 then
      transfer_wrapped g sender senderChain targetChain fee g.data_storage.receiver zebecEoa ext
    else eFail g .SenderDerivedKeyMismatch
  else eFail g .PdaSenderMismatch

def transaction_direct_transfer_wrapped (g0 : GState) (sender : List Nat)
    (senderChain : List Nat) (targetChain fee : Nat) (pdaSignerKey zebecEoa : Pubkey)
    (ext : Bool) : ExecOut :=
  if g0.txn_status.executed then eFail g0 .TransactionAlreadyExecuted
  else transaction_direct_transfer_wrapped_checks { g0 with txn_status := ⟨true⟩ }
    sender senderChain targetChain fee pdaSignerKey zebecEoa ext

/-- register_chain: only the length of the emitter string is validated. -/
def register_chain (g : GState) (chainId : Nat) (emitterAddr : String) : ExecOut :=
  if emitterAddr.length = EVM_CHAIN_ADDRESS_LENGTH then
    eOk { g with emitter_acc := ⟨chainId, emitterAddr⟩ }
  else eFail g .InvalidEmitterAddress

/-- The initialize entrypoint: sets the owner and nonce = 1.  The
account-init constraint (a ledger failure if the Configuration account
already exists) is modelled from the spec, which states the account is
created once. -/
def init_cfg (g : GState) (owner : Pubkey) : ExecOut :=
  if g.config_initialized then ⟨g, some .accountInUse, none⟩
  else eOk { g with config := ⟨owner, 1⟩, config_initialized := true }

/-- Every public entrypoint of the program, with its arguments. -/
inductive Op where
  | opInit (owner : Pubkey)
  | opRegisterChain (chainId : Nat) (emitterAddr : String)
  | opStoreMsg (vaa : MessageData) (vaaAccKey : Pubkey) (sender : List Nat)
  | opTransactionDeposit (pid : Pubkey) (accs : List TransactionAccount) (data : List Nat)
      (chainId : List Nat) (sender : List Nat) (pdaSigner : Pubkey)
  | opCreateStream (pid : Pubkey) (accs : List TransactionAccount) (data : List Nat)
      (sender : List Nat)
  | opTransactionStreamUpdate (pid : Pubkey) (accs : List TransactionAccount) (data : List Nat)
      (chainId : List Nat) (sender : List Nat) (pdaSigner : Pubkey)
  | opTransactionPauseResume (pid : Pubkey) (accs : List TransactionAccount) (data : List Nat)
      (chainId : List Nat) (sender : List Nat) (pdaSigner : Pubkey)
  | opCreateReceiverWithdraw (pid : Pubkey) (accs : List TransactionAccount) (data : List Nat)
      (sender : List Nat)
  | opCreateCancel (pid : Pubkey) (accs : List TransactionAccount) (data : List Nat)
      (sender : List Nat)
  | opCreateSenderWithdraw (pid : Pubkey) (accs : List TransactionAccount) (data : List Nat)
      (sender : List Nat)
  | opCreateInstantTransfer (pid : Pubkey) (accs : List TransactionAccount) (data : List Nat)
      (sender : List Nat)
  | opDirectTransferNative (sender : List Nat) (chainId : List Nat) (targetChain fee : Nat)
      (mintKey pdaSignerKey zebecEoa : Pubkey)
  | opDirectTransferWrapped (sender : List Nat) (senderChain : List Nat) (targetChain fee : Nat)
      (pdaSignerKey zebecEoa : Pubkey)
  | opExecuteTransaction (ethAdd fromChainId : List Nat) (pdaSigner : Pubkey)
  | opTransferNative (sender : List Nat) (senderChain : List Nat) (targetChain fee : Nat)
      (receiver : List Nat) (zebecEoa : Pubkey)
  | opTransferWrapped (sender : List Nat) (senderChain : List Nat) (targetChain fee : Nat)
      (receiver : List Nat) (zebecEoa : Pubkey)

/-- Run one entrypoint; the ext flag tells whether external calls reached by
the handler succeed. -/
def applyOp (g : GState) (o : Op) (ext : Bool) : ExecOut :=
  match o with
  | .opInit owner => init_cfg g owner
  | .opRegisterChain c a => register_chain g c a
  | .opStoreMsg vaa k s => store_msg g vaa k s
  | .opTransactionDeposit pid accs data c s p => transaction_deposit g pid accs data c s p ext
  | .opCreateStream pid accs data s => create_transaction_stream g pid accs data s
  | .opTransactionStreamUpdate pid accs data c s p =>
      transaction_stream_update g pid accs data c s p ext
  | .opTransactionPauseResume pid accs data c s p =>
      transaction_pause_resume g pid accs data c s p ext
  | .opCreateReceiverWithdraw pid accs data s =>
      create_transaction_receiver_withdraw g pid accs data s
  | .opCreateCancel pid accs data s => create_transaction_cancel g pid accs data s
  | .opCreateSenderWithdraw pid accs data s => create_transaction_sender_withdraw g pid accs data s
  | .opCreateInstantTransfer pid accs data s =>
      create_transaction_instant_transfer g pid accs data s
  | .opDirectTransferNative s c tc f mk pk z =>
      transaction_direct_transfer_native g s c tc f mk pk z ext
  | .opDirectTransferWrapped s c tc f pk z =>
      transaction_direct_transfer_wrapped g s c tc f pk z ext
  | .opExecuteTransaction e c p => execute_transaction g e c p ext
  | .opTransferNative s c tc f r z => transfer_native g s c tc f r z ext
  | .opTransferWrapped s c tc f r z => transfer_wrapped g s c tc f r z ext

/-- The committed state after one entrypoint invocation. -/
def step (g : GState) (o : Op) (ext : Bool) : GState := commitOut g (applyOp g o ext)

/-- The committed state after a sequence of invocations. -/
def stepList (g : GState) (l : List (Op × Bool)) : GState :=
  l.foldl (fun g p => step g p.1 p.2) g

/-- The result state agrees with g on every account except data_storage. -/
def OnlyDS (g : GState) (r : ExecOut) : Prop :=
  r.state = { g with data_storage := r.state.data_storage }

/-- The result state agrees with g on every account except data_storage and
the transaction counter. -/
def OnlyDSCount (g : GState) (r : ExecOut) : Prop :=
  r.state = { g with data_storage := r.state.data_storage, txn_count := r.state.txn_count }

/-- Fixture: an administrative owner key. -/
def ownerA : Pubkey := List.replicate 32 9

/-- Fixture: a token mint key. -/
def mintKeyA : Pubkey := List.replicate 32 7

/-- Fixture: a 32-byte remote sender identity. -/
def senderA : List Nat := List.replicate 32 1

/-- Fixture: a 32-byte remote receiver identity. -/
def receiverA : List Nat := List.replicate 32 2

/-- Fixture: a stream data account key. -/
def dataAccA : Pubkey := List.replicate 32 3

/-- Fixture: a 64-hex-character emitter registration string. -/
def hexAddrA : String := String.mk (List.replicate 64 'a')

/-- Fixture: the bytes hexAddrA decodes to. -/
def regBytesA : List Nat := List.replicate 32 170

/-- Fixture: a 64-character registration string that is not hex. -/
def nonHexAddrA : String := String.mk (List.replicate 64 'z')

/-- Fixture: a staged operation populated with the scenario values. -/
def dsA : DataStorage := ⟨1000, senderA, receiverA, 2, mintKeyA, 10, 20, true, false, dataAccA⟩

/-- Fixture: an empty staged transaction. -/
def txA : Transaction := ⟨[], [], [], false⟩

/-- Fixture: a baseline state with chain 2 registered to hexAddrA. -/
def gHex : GState := ⟨⟨ownerA, 1⟩, true, ⟨2, hexAddrA⟩, ⟨5⟩, dsA, ⟨false⟩, txA⟩

/-- Fixture: a message carrying the stream opcode byte 2 over a
deposit-shaped payload encoding amount 1000, sender senderA, mint mintKeyA. -/
def vaaDep2 : MessageData :=
  ⟨100, 1, 2, regBytesA, 1, 1, 2 :: (beBytes 8 1000 ++ (List.replicate 32 0 ++ (senderA ++ mintKeyA)))⟩

/-- Fixture: the same payload under the deposit opcode byte 6. -/
def vaaDep6 : MessageData :=
  ⟨100, 1, 2, regBytesA, 1, 1, 6 :: (beBytes 8 1000 ++ (List.replicate 32 0 ++ (senderA ++ mintKeyA)))⟩

/-- Fixture: a transaction account entry with the given key. -/
def accOf (p : Pubkey) : TransactionAccount := ⟨p, false, false⟩

/-- Fixture: an account list whose position-7 entry is not the staged mint. -/
def accsBadMint : List TransactionAccount :=
  List.replicate 7 (accOf (List.replicate 32 4)) ++ [accOf (List.replicate 32 5)]

/-- Fixture: a filler account entry. -/
def dummyAcc : TransactionAccount := accOf (List.replicate 32 8)

/-- Fixture: a stream-create account list whose position-5 sender account
carries the receiver-derived address (identities swapped). -/
def accsSwap : List TransactionAccount :=
  [dummyAcc, dummyAcc, dummyAcc, dummyAcc, dummyAcc,
   accOf (find_program_address [receiverA, decimalBytes 2] selfProgramId).1,
   dummyAcc, dummyAcc, dummyAcc, accOf mintKeyA]

/-- Fixture: a cancel / receiver-withdraw account list matching every staged
account of gHex (receiver-derived at 1, sender-derived at 2, data account at
6, mint at 12). -/
def accsCancel : List TransactionAccount :=
  [dummyAcc,
   accOf (find_program_address [receiverA, decimalBytes 2] selfProgramId).1,
   accOf (find_program_address [senderA, decimalBytes 2] selfProgramId).1,
   dummyAcc, dummyAcc, dummyAcc,
   accOf dataAccA,
   dummyAcc, dummyAcc, dummyAcc, dummyAcc, dummyAcc,
   accOf mintKeyA]

/-- Fixture: a sender-withdraw account list matching gHex (sender-derived at
2, mint at 7). -/
def accsSWok : List TransactionAccount :=
  [dummyAcc, dummyAcc,
   accOf (find_program_address [senderA, decimalBytes 2] selfProgramId).1,
   dummyAcc, dummyAcc, dummyAcc, dummyAcc,
   accOf mintKeyA]

/-- Fixture: a message whose claimed emitter address mutates byte 0 of the
registered address. -/
def vaaMut : MessageData :=
  ⟨100, 1, 2, regBytesA.set 0 0, 1, 1, 6 :: (beBytes 8 1000 ++ (List.replicate 32 0 ++ (senderA ++ mintKeyA)))⟩

/-- Fixture: a valid-emitter message with an empty payload. -/
def vaaEmptyPayload : MessageData := ⟨100, 1, 2, regBytesA, 1, 1, []⟩

theorem process_deposit_frame (enc : List Nat) (c : Nat) (g : GState) (s : List Nat) :
    OnlyDS g (process_deposit enc c g s) := by
  unfold process_deposit OnlyDS
  split <;> simp [eOk, eFail, eCrash] <;> split <;> simp [eOk, eFail]

theorem process_stream_frame (enc : List Nat) (c : Nat) (g : GState) (s : List Nat) :
    OnlyDS g (process_stream enc c g s) := by
  unfold process_stream OnlyDS
  split <;> simp [eOk, eFail, eCrash] <;> split <;> simp [eOk, eFail]

theorem process_update_stream_frame (enc : List Nat) (c : Nat) (g : GState) (s : List Nat) :
    OnlyDS g (process_update_stream enc c g s) := by
  unfold process_update_stream OnlyDS
  split <;> simp [eOk, eFail, eCrash] <;> split <;> simp [eOk, eFail]

theorem process_pause_frame (enc : List Nat) (c : Nat) (g : GState) (s : List Nat) :
    OnlyDS g (process_pause enc c g s) := by
  unfold process_pause OnlyDS
  split <;> simp [eOk, eFail, eCrash] <;> split <;> simp [eOk, eFail]

theorem process_withdraw_stream_frame (enc : List Nat) (c : Nat) (g : GState) (s : List Nat) :
    OnlyDS g (process_withdraw_stream enc c g s) := by
  unfold process_withdraw_stream OnlyDS
  split <;> simp [eOk, eFail, eCrash] <;> split <;> simp [eOk, eFail]

theorem process_cancel_stream_frame (enc : List Nat) (c : Nat) (g : GState) (s : List Nat) :
    OnlyDS g (process_cancel_stream enc c g s) := by
  unfold process_cancel_stream OnlyDS
  split <;> simp [eOk, eFail, eCrash] <;> split <;> simp [eOk, eFail]

theorem process_withdraw_frame (enc : List Nat) (c : Nat) (g : GState) (s : List Nat) :
    OnlyDS g (process_withdraw enc c g s) := by
  unfold process_withdraw OnlyDS
  split <;> simp [eOk, eFail, eCrash] <;> split <;> simp [eOk, eFail]

theorem process_instant_transfer_frame (enc : List Nat) (c : Nat) (g : GState) (s : List Nat) :
    OnlyDS g (process_instant_transfer enc c g s) := by
  unfold process_instant_transfer OnlyDS
  split <;> simp [eOk, eFail, eCrash] <;> split <;> simp [eOk, eFail]

theorem process_direct_transfer_frame (enc : List Nat) (c : Nat) (g : GState) (s : List Nat) :
    OnlyDS g (process_direct_transfer enc c g s) := by
  unfold process_direct_transfer OnlyDS
  split <;> simp [eOk, eFail, eCrash] <;> split <;> simp [eOk, eFail]

theorem dispatch_code_frame (code : Nat) (enc : List Nat) (c : Nat) (g : GState) (s : List Nat) :
    OnlyDS g (dispatch_code code enc c g s) := by
  unfold dispatch_code
  split
  · exact process_stream_frame ..
  · exact process_withdraw_stream_frame ..
  · exact process_deposit_frame ..
  · exact process_pause_frame ..
  · exact process_withdraw_frame ..
  · exact process_instant_transfer_frame ..
  · exact process_update_stream_frame ..
  · exact process_cancel_stream_frame ..
  · exact process_direct_transfer_frame ..
  · simp [OnlyDS, eFail]

theorem store_msg_rewrite (g : GState) (vaa : MessageData) (k : Pubkey) (s : List Nat)
    (h1 : k = vaa_key_of vaa) (h2 : vaa.emitter_chain = g.emitter_acc.chain_id)
    {rb : List Nat} (h3 : hexDecode g.emitter_acc.emitter_addr = some rb)
    (h4 : vaa.emitter_address = rb)
    {cb : List Nat} (h5 : sliceChecked vaa.payload 0 1 = some cb)
    {v : Nat} (h6 : checkedAdd64 g.txn_count.count = some v) :
    store_msg g vaa k s =
      dispatch_code (get_u8 cb) vaa.payload vaa.emitter_chain { g with txn_count := ⟨v⟩ } s := by
  simp [store_msg, h1, h2, h3, h4, h5, h6]

theorem store_msg_success_cases (g : GState) (vaa : MessageData) (k : Pubkey) (s : List Nat)
    (h : (store_msg g vaa k s).error = none) :
    k = vaa_key_of vaa ∧ vaa.emitter_chain = g.emitter_acc.chain_id ∧
      ∃ rb, hexDecode g.emitter_acc.emitter_addr = some rb ∧ vaa.emitter_address = rb ∧
        ∃ cb, sliceChecked vaa.payload 0 1 = some cb ∧
          ∃ v, checkedAdd64 g.txn_count.count = some v := by
  unfold store_msg at h
  split at h
  case isTrue h1 =>
    split at h
    case isTrue h2 =>
      split at h
      case h_1 => simp [eCrash] at h
      case h_2 rb h3 =>
        split at h
        case isTrue h4 =>
          split at h
          case h_1 => simp [eCrash] at h
          case h_2 cb h5 =>
            split at h
            case h_1 => simp [eFail] at h
            case h_2 v h6 =>
              exact ⟨h1, h2, rb, h3, h4, cb, h5, v, h6⟩
        case isFalse => simp [eFail] at h
    case isFalse => simp [eFail] at h
  case isFalse => simp [eFail] at h

theorem store_msg_frame (g : GState) (vaa : MessageData) (k : Pubkey) (s : List Nat) :
    OnlyDSCount g (store_msg g vaa k s) := by
  unfold store_msg
  split
  case isTrue h1 =>
    split
    case isTrue h2 =>
      split
      case h_1 => simp [OnlyDSCount, eCrash]
      case h_2 rb h3 =>
        split
        case isTrue h4 =>
          split
          case h_1 => simp [OnlyDSCount, eCrash]
          case h_2 cb h5 =>
            split
            case h_1 => simp [OnlyDSCount, eFail]
            case h_2 v h6 =>
              have hd := dispatch_code_frame (get_u8 cb) vaa.payload vaa.emitter_chain
                { g with txn_count := ⟨v⟩ } s
              unfold OnlyDS at hd
              unfold OnlyDSCount
              rw [hd]
        case isFalse => simp [OnlyDSCount, eFail]
    case isFalse => simp [OnlyDSCount, eFail]
  case isFalse => simp [OnlyDSCount, eFail]

theorem sliceChecked_append (pre mid rest : List Nat) :
    sliceChecked (pre ++ (mid ++ rest)) pre.length (pre.length + mid.length) = some mid := by
  unfold sliceChecked
  rw [if_pos]
  · rw [Nat.add_sub_cancel_left, List.drop_left, List.take_left]
  · constructor
    · exact Nat.le_add_right _ _
    · simp [Nat.add_assoc]

theorem set_ne_of_getD (l : List Nat) (i b : Nat) (h : i < l.length) (hne : b ≠ l.getD i 0) :
    l.set i b ≠ l := by
  intro he
  apply hne
  have hv : (l.set i b).getD i 0 = b := by
    rw [List.getD_eq_getElem?_getD, List.getElem?_set_self (by simpa using h)]
    rfl
  rw [he] at hv
  exact hv.symm

theorem store_msg_success_count (g : GState) (vaa : MessageData) (k : Pubkey) (s : List Nat)
    (h : (store_msg g vaa k s).error = none) :
    g.txn_count.count < 2 ^ 64 - 1 ∧
      (store_msg g vaa k s).state.txn_count.count = g.txn_count.count + 1 := by
  obtain ⟨h1, h2, rb, h3, h4, cb, h5, v, h6⟩ := store_msg_success_cases g vaa k s h
  have hv : g.txn_count.count < 2 ^ 64 - 1 ∧ v = g.txn_count.count + 1 := by
    unfold checkedAdd64 at h6
    split at h6 <;> simp_all
  have hr := store_msg_rewrite g vaa k s h1 h2 h3 h4 h5 h6
  have hd := dispatch_code_frame (get_u8 cb) vaa.payload vaa.emitter_chain
    { g with txn_count := ⟨v⟩ } s
  unfold OnlyDS at hd
  refine ⟨hv.1, ?_⟩
  rw [hr, hd, hv.2]

/-- C2: store_msg accepts a message only when the VAA's emitter chain and
emitter address both equal the registered emitter for that chain, and any
mismatch — including any single-byte mutation of the emitter address —
fails with VAAEmitterMismatch. -/
theorem C2_store_msg_emitter_gate (g : GState) (vaa : MessageData) (k : Pubkey) (s : List Nat)
    {rb : List Nat} (hreg : hexDecode g.emitter_acc.emitter_addr = some rb) :
    ((store_msg g vaa k s).error = none →
      vaa.emitter_chain = g.emitter_acc.chain_id ∧ vaa.emitter_address = rb) ∧
    (∀ i b, k = vaa_key_of vaa → vaa.emitter_chain = g.emitter_acc.chain_id →
      vaa.emitter_address = rb.set i b → i < rb.length → b ≠ rb.getD i 0 →
      (store_msg g vaa k s).error = some (.msgErr .VAAEmitterMismatch)) := by
  constructor
  · intro h
    obtain ⟨h1, h2, rb0, h3, h4, _⟩ := store_msg_success_cases g vaa k s h
    rw [hreg] at h3
    cases h3
    exact ⟨h2, h4⟩
  · intro i b hk hchain haddr hi hb
    have hne := set_ne_of_getD rb i b hi hb
    simp [store_msg, hk, hchain, hreg, haddr, hne, eFail]

/-- C2 witness: the concrete registered chain 2 with a 64-hex-char emitter;
mutating byte 0 of the claimed emitter address makes store_msg fail with
VAAEmitterMismatch. -/
theorem C2_store_msg_emitter_gate_witness :
    (store_msg gHex vaaMut (vaa_key_of vaaMut) senderA).error =
      some (.msgErr .VAAEmitterMismatch) :=
  (@C2_store_msg_emitter_gate gHex vaaMut (vaa_key_of vaaMut) senderA regBytesA
    (by decide)).2 0 0 rfl (by decide) (by decide) (by decide) (by decide)

/-- C3 counterexample: the claim routes opcode byte 2 to the deposit decode,
but the code routes opcode 2 to the stream handler, which reads offsets up
to 169 and panics on the 105-byte deposit-shaped payload: the call fails
(no StagedOperation written, counter not incremented). -/
theorem C3_counterexample :
    (store_msg gHex vaaDep2 (vaa_key_of vaaDep2) senderA).error = some .crash ∧
    commitOut gHex (store_msg gHex vaaDep2 (vaa_key_of vaaDep2) senderA) = gHex := by
  decide

/-- C3 (amended): with the deposit opcode byte 6 (not 2), a payload encoding
amount bytes aB, sender S and mint M from a registered chain yields the
deposit-shaped StagedOperation (amount, sender, from_chain_id, token_mint)
and increments the TransactionCounter by exactly 1. -/
theorem C3_deposit_decode (g : GState) (vaa : MessageData) (s : List Nat)
    {rb aB tB S M : List Nat}
    (hreg : hexDecode g.emitter_acc.emitter_addr = some rb)
    (hchain : vaa.emitter_chain = g.emitter_acc.chain_id)
    (haddr : vaa.emitter_address = rb)
    (hpay : vaa.payload = 6 :: (aB ++ (tB ++ (S ++ M))))
    (ha : aB.length = 8) (ht : tB.length = 32) (hS : S.length = 32) (hM : M.length = 32)
    (hs : S = s)
    (hcount : g.txn_count.count < 2 ^ 64 - 1) :
    (store_msg g vaa (vaa_key_of vaa) s).error = none ∧
    (store_msg g vaa (vaa_key_of vaa) s).state.data_storage.amount = beNat aB ∧
    (store_msg g vaa (vaa_key_of vaa) s).state.data_storage.sender = S ∧
    (store_msg g vaa (vaa_key_of vaa) s).state.data_storage.from_chain_id =
      g.emitter_acc.chain_id ∧
    (store_msg g vaa (vaa_key_of vaa) s).state.data_storage.token_mint = M ∧
    (store_msg g vaa (vaa_key_of vaa) s).state.txn_count.count = g.txn_count.count + 1 := by
  have h01 : sliceChecked vaa.payload 0 1 = some [6] := by
    rw [hpay]
    simp [sliceChecked]
  have hadd : checkedAdd64 g.txn_count.count = some (g.txn_count.count + 1) := by
    unfold checkedAdd64
    rw [if_pos hcount]
  have hr := store_msg_rewrite g vaa (vaa_key_of vaa) s rfl hchain hreg haddr h01 hadd
  have hc : get_u8 ([6] : List Nat) = 6 := rfl
  rw [hr, hc]
  have e1 : sliceChecked vaa.payload 1 9 = some aB := by
    have h := sliceChecked_append [6] aB (tB ++ (S ++ M))
    simpa [hpay, ha] using h
  have e2 : sliceChecked vaa.payload 9 41 = some tB := by
    have h := sliceChecked_append ([6] ++ aB) tB (S ++ M)
    simpa [hpay, ha, ht, List.append_assoc] using h
  have e3 : sliceChecked vaa.payload 41 73 = some S := by
    have h := sliceChecked_append (([6] ++ aB) ++ tB) S M
    simpa [hpay, ha, ht, hS, List.append_assoc] using h
  have e4 : sliceChecked vaa.payload 73 105 = some M := by
    have h := sliceChecked_append ((([6] ++ aB) ++ tB) ++ S) M []
    simpa [hpay, ha, ht, hS, hM, List.append_assoc] using h
  simp [dispatch_code, process_deposit, e1, e2, e3, e4, hs, eOk, get_u64, pubkey_new, hchain]

/-- C3 witness: the scenario instance — chain 2, amount 1000, sender
senderA, mint mintKeyA, counter 5 before and 6 after. -/
theorem C3_deposit_decode_witness :
    (store_msg gHex vaaDep6 (vaa_key_of vaaDep6) senderA).error = none ∧
    (store_msg gHex vaaDep6 (vaa_key_of vaaDep6) senderA).state.data_storage.amount = 1000 ∧
    (store_msg gHex vaaDep6 (vaa_key_of vaaDep6) senderA).state.txn_count.count = 6 :=
  ⟨(@C3_deposit_decode gHex vaaDep6 senderA regBytesA (beBytes 8 1000)
      (List.replicate 32 0) senderA mintKeyA (by decide) (by decide) (by decide) rfl
      (by decide) (by decide) (by decide) (by decide) rfl (by decide)).1,
    by decide, by decide⟩

/-- C10: register_chain accepts any 64-character string without validating
hex, and store_msg then panics on the unconditional unwrap of the hex decode
of the registered address; a registered valid-hex emitter with an empty
payload panics on the unchecked index of payload byte 0. -/
theorem C10_register_nonhex_store_msg_panics :
    (register_chain gHex 2 nonHexAddrA).error = none ∧
    (store_msg (step gHex (.opRegisterChain 2 nonHexAddrA) true) vaaDep6
      (vaa_key_of vaaDep6) senderA).error = some .crash ∧
    (store_msg gHex vaaEmptyPayload (vaa_key_of vaaEmptyPayload) senderA).error =
      some .crash := by
  decide

/-- C7: in a create_transaction_sender_withdraw call whose account list has
a position-7 mint differing from StagedOperation.token_mint, the handler
fails with MintKeyMismatch, and at that point it has already written the
StagedTransaction (program_id, accounts, instruction data) with did_execute
still false.  The write is the in-invocation account state the spec
documents as a side effect; the environment commit discards it on the
error. -/
theorem C7_sender_withdraw_mint_mismatch (g : GState) (pid : Pubkey)
    (accs : List TransactionAccount) (data : List Nat) (s : List Nat)
    {a7 : TransactionAccount}
    (hexec : g.txn_status.executed = false)
    (h7 : accs[7]? = some a7)
    (hm : a7.pubkey ≠ g.data_storage.token_mint) :
    (create_transaction_sender_withdraw g pid accs data s).error =
      some (.msgErr .MintKeyMismatch) ∧
    (create_transaction_sender_withdraw g pid accs data s).state.transaction =
      ⟨pid, accs, data, false⟩ := by
  simp [create_transaction_sender_withdraw, create_transaction_sender_withdraw_checks, stageTx,
    hexec, h7, hm, eFail]

/-- C7 witness: a concrete call with a wrong position-7 mint. -/
theorem C7_sender_withdraw_mint_mismatch_witness :
    (create_transaction_sender_withdraw gHex selfProgramId accsBadMint [0] senderA).error =
      some (.msgErr .MintKeyMismatch) ∧
    (create_transaction_sender_withdraw gHex selfProgramId accsBadMint [0] senderA).state.transaction =
      ⟨selfProgramId, accsBadMint, [0], false⟩ :=
  @C7_sender_withdraw_mint_mismatch gHex selfProgramId accsBadMint [0] senderA
    (accOf (List.replicate 32 5)) (by decide) (by decide) (by decide)

/-- C6: a rejected validation commits no state change: every errored
invocation commits the pre-state (the environment rollback), and in
particular a store_msg rejected with InvalidSenderWallet leaves the
StagedOperation record and the TransactionCounter unchanged. -/
theorem C6_rejection_no_mutation (g : GState) (vaa : MessageData) (k : Pubkey) (s : List Nat)
    (h : (store_msg g vaa k s).error = some (.msgErr .InvalidSenderWallet)) :
    (∀ o ext, (applyOp g o ext).error ≠ none → step g o ext = g) ∧
    (commitOut g (store_msg g vaa k s)).data_storage = g.data_storage ∧
    (commitOut g (store_msg g vaa k s)).txn_count = g.txn_count := by
  refine ⟨?_, ?_, ?_⟩
  · intro o ext he
    unfold step commitOut
    split
    · rename_i hnone
      exact absurd hnone he
    · rfl
  · simp [commitOut, h]
  · simp [commitOut, h]

/-- C6 witness: the deposit message submitted under a caller identity that
is not the embedded sender is rejected with InvalidSenderWallet and commits
nothing. -/
theorem C6_rejection_no_mutation_witness :
    (commitOut gHex (store_msg gHex vaaDep6 (vaa_key_of vaaDep6) receiverA)).data_storage =
      gHex.data_storage ∧
    (commitOut gHex (store_msg gHex vaaDep6 (vaa_key_of vaaDep6) receiverA)).txn_count =
      gHex.txn_count :=
  ⟨(C6_rejection_no_mutation gHex vaaDep6 (vaa_key_of vaaDep6) receiverA (by decide)).2.1,
    (C6_rejection_no_mutation gHex vaaDep6 (vaa_key_of vaaDep6) receiverA (by decide)).2.2⟩

theorem find_program_address_two_seed_inj (x y c : List Nat) (p : Pubkey)
    (h : (find_program_address [x, c] p).1 = (find_program_address [y, c] p).1) : x = y := by
  unfold find_program_address at h
  simp only [List.map, List.foldr] at h
  have h2 := List.append_cancel_left h
  simp only [List.cons_append] at h2
  injection h2 with hlen htail
  exact List.append_cancel_right htail

/-- C5: execute_transaction checks only the two flags: for every
caller-supplied eth_add and from_chain_id, when both latches are false it
reaches the downstream invocation, whose signer seeds are exactly
(eth_add, from_chain_id, bump); its error and invocation are independent of
the StagedOperation; and perform_cpi marks every staged account whose
pubkey equals the passed pda_signer as a signer. -/
theorem C5_execute_no_staged_checks (g : GState) (ethAdd fromChainId : List Nat)
    (p : Pubkey) (ext : Bool)
    (hexec : g.txn_status.executed = false)
    (hde : g.transaction.did_execute = false) :
    (execute_transaction g ethAdd fromChainId p ext).cpi =
      some (perform_cpi_call { g.transaction with did_execute := true } ethAdd fromChainId p) ∧
    (∀ ds : DataStorage,
      (execute_transaction { g with data_storage := ds } ethAdd fromChainId p ext).error =
        (execute_transaction g ethAdd fromChainId p ext).error ∧
      (execute_transaction { g with data_storage := ds } ethAdd fromChainId p ext).cpi =
        (execute_transaction g ethAdd fromChainId p ext).cpi) ∧
    (perform_cpi_call { g.transaction with did_execute := true } ethAdd fromChainId p).seeds =
      [ethAdd, fromChainId, [255]] ∧
    (∀ (i : Nat) (a : TransactionAccount), g.transaction.accounts[i]? = some a → a.pubkey = p →
      (perform_cpi_call { g.transaction with did_execute := true }
          ethAdd fromChainId p).ix.accounts[i]? =
        some { a with is_signer := true }) := by
  refine ⟨?_, ?_, ?_, ?_⟩
  · cases ext <;> simp [execute_transaction, burn_and_invoke, hexec, hde]
  · intro ds
    cases ext <;> simp [execute_transaction, burn_and_invoke, hexec, hde]
  · simp [perform_cpi_call, find_program_address]
  · intro i a hi hp
    simp [perform_cpi_call, List.getElem?_map, hi, hp]

/-- C5 witness: concrete state with both flags false; the invocation is
attempted with the caller-chosen seeds. -/
theorem C5_execute_no_staged_checks_witness :
    (execute_transaction gHex senderA [50] mintKeyA true).cpi =
      some (perform_cpi_call { gHex.transaction with did_execute := true }
        senderA [50] mintKeyA) :=
  (C5_execute_no_staged_checks gHex senderA [50] mintKeyA true (by decide) (by decide)).1

/-- C9: in create_transaction_stream the sender and receiver account checks
compare the supplied accounts against the address derived from
(identity bytes, decimal chain-id bytes) under the program's own derivation;
the derivation is injective in the identity for a fixed chain seed, a
mismatched sender account fails SenderDerivedKeyMismatch, and passing the
swapped identities (receiver-derived where sender-derived is expected and
conversely) fails the checks when sender and receiver differ. -/
theorem C9_derived_key_checks (g : GState) (pid : Pubkey) (accs : List TransactionAccount)
    (data : List Nat) (s : List Nat) {a9 a5 a6 : TransactionAccount}
    (hexec : g.txn_status.executed = false)
    (h9 : accs[9]? = some a9) (hmint : a9.pubkey = g.data_storage.token_mint)
    (hsend : s = g.data_storage.sender)
    (h5 : accs[5]? = some a5) (h6 : accs[6]? = some a6) :
    (∀ x y c : List Nat, (find_program_address [x, c] selfProgramId).1 =
      (find_program_address [y, c] selfProgramId).1 → x = y) ∧
    (a5.pubkey ≠
        (find_program_address [s, decimalBytes g.data_storage.from_chain_id] selfProgramId).1 →
      (create_transaction_stream g pid accs data s).error =
        some (.msgErr .SenderDerivedKeyMismatch)) ∧
    (a5.pubkey =
        (find_program_address [g.data_storage.receiver, decimalBytes g.data_storage.from_chain_id]
          selfProgramId).1 →
      g.data_storage.sender ≠ g.data_storage.receiver →
      (create_transaction_stream g pid accs data s).error =
        some (.msgErr .SenderDerivedKeyMismatch)) ∧
    (a5.pubkey =
        (find_program_address [s, decimalBytes g.data_storage.from_chain_id] selfProgramId).1 →
      a6.pubkey =
        (find_program_address [g.data_storage.sender, decimalBytes g.data_storage.from_chain_id]
          selfProgramId).1 →
      g.data_storage.sender ≠ g.data_storage.receiver →
      (create_transaction_stream g pid accs data s).error =
        some (.msgErr .ReceiverDerivedKeyMismatch)) := by
  have hinj : ∀ x y c : List Nat, (find_program_address [x, c] selfProgramId).1 =
      (find_program_address [y, c] selfProgramId).1 → x = y :=
    fun x y c h => find_program_address_two_seed_inj x y c selfProgramId h
  subst hsend
  refine ⟨hinj, ?_, ?_, ?_⟩
  · intro hne
    simp [create_transaction_stream, create_transaction_stream_checks, stageTx, chainSeedOf,
      hexec, h9, hmint, h5, h6, hne, eFail]
  · intro heq hne
    have hne2 : a5.pubkey ≠
        (find_program_address [g.data_storage.sender, decimalBytes g.data_storage.from_chain_id]
          selfProgramId).1 := by
      rw [heq]
      intro hcontra
      exact hne (hinj _ _ _ hcontra).symm
    simp [create_transaction_stream, create_transaction_stream_checks, stageTx, chainSeedOf,
      hexec, h9, hmint, h5, h6, hne2, eFail]
  · intro h5eq h6eq hne
    have hne2 : a6.pubkey ≠
        (find_program_address [g.data_storage.receiver, decimalBytes g.data_storage.from_chain_id]
          selfProgramId).1 := by
      rw [h6eq]
      intro hcontra
      exact hne (hinj _ _ _ hcontra)
    simp [create_transaction_stream, create_transaction_stream_checks, stageTx, chainSeedOf,
      hexec, h9, hmint, h5, h5eq, h6, hne2, eFail]

/-- C9 witness: passing the receiver-derived address in the sender position
(identities swapped) fails with SenderDerivedKeyMismatch on the concrete
state. -/
theorem C9_derived_key_checks_witness :
    (create_transaction_stream gHex selfProgramId accsSwap [] senderA).error =
      some (.msgErr .SenderDerivedKeyMismatch) :=
  (@C9_derived_key_checks gHex selfProgramId accsSwap [] senderA (accOf mintKeyA)
    (accOf (find_program_address [receiverA, decimalBytes 2] selfProgramId).1) dummyAcc
    (by decide) (by decide) (by decide) (by decide) (by decide) (by decide)).2.2.1
    (by decide) (by decide)

theorem create_transaction_stream_checks_state (g : GState)
    (accs : List TransactionAccount) (data s : List Nat) :
    (create_transaction_stream_checks g accs data s).state = g := by
  generalize hE : create_transaction_stream_checks g accs data s = r
  unfold create_transaction_stream_checks at hE
  repeat' split at hE
  all_goals rw [← hE]
  all_goals rfl

theorem create_transaction_cancel_checks_state (g : GState)
    (accs : List TransactionAccount) (s : List Nat) :
    (create_transaction_cancel_checks g accs s).state = g := by
  generalize hE : create_transaction_cancel_checks g accs s = r
  unfold create_transaction_cancel_checks at hE
  repeat' split at hE
  all_goals rw [← hE]
  all_goals rfl

theorem create_transaction_receiver_withdraw_checks_state (g : GState)
    (accs : List TransactionAccount) (s : List Nat) :
    (create_transaction_receiver_withdraw_checks g accs s).state = g := by
  generalize hE : create_transaction_receiver_withdraw_checks g accs s = r
  unfold create_transaction_receiver_withdraw_checks at hE
  repeat' split at hE
  all_goals rw [← hE]
  all_goals rfl

theorem create_transaction_sender_withdraw_checks_state (g : GState)
    (accs : List TransactionAccount) (data s : List Nat) :
    (create_transaction_sender_withdraw_checks g accs data s).state = g := by
  generalize hE : create_transaction_sender_withdraw_checks g accs data s = r
  unfold create_transaction_sender_withdraw_checks at hE
  repeat' split at hE
  all_goals rw [← hE]
  all_goals rfl

theorem create_transaction_instant_transfer_checks_state (g : GState)
    (accs : List TransactionAccount) (data s : List Nat) :
    (create_transaction_instant_transfer_checks g accs data s).state = g := by
  generalize hE : create_transaction_instant_transfer_checks g accs data s = r
  unfold create_transaction_instant_transfer_checks at hE
  repeat' split at hE
  all_goals rw [← hE]
  all_goals rfl

theorem transaction_deposit_checks_tx_only (g : GState) (accs : List TransactionAccount)
    (data c s : List Nat) (p : Pubkey) (ext : Bool) :
    ∃ t, (transaction_deposit_checks g accs data c s p ext).state =
      { g with transaction := t } := by
  generalize hE : transaction_deposit_checks g accs data c s p ext = r
  unfold transaction_deposit_checks burn_and_invoke at hE
  repeat' split at hE
  all_goals rw [← hE]
  all_goals exact ⟨_, rfl⟩

theorem transaction_stream_update_checks_tx_only (g : GState) (accs : List TransactionAccount)
    (data c s : List Nat) (p : Pubkey) (ext : Bool) :
    ∃ t, (transaction_stream_update_checks g accs data c s p ext).state =
      { g with transaction := t } := by
  generalize hE : transaction_stream_update_checks g accs data c s p ext = r
  unfold transaction_stream_update_checks burn_and_invoke at hE
  repeat' split at hE
  all_goals rw [← hE]
  all_goals exact ⟨_, rfl⟩

theorem transaction_pause_resume_checks_tx_only (g : GState) (accs : List TransactionAccount)
    (c s : List Nat) (p : Pubkey) (ext : Bool) :
    ∃ t, (transaction_pause_resume_checks g accs c s p ext).state =
      { g with transaction := t } := by
  generalize hE : transaction_pause_resume_checks g accs c s p ext = r
  unfold transaction_pause_resume_checks burn_and_invoke at hE
  repeat' split at hE
  all_goals rw [← hE]
  all_goals exact ⟨_, rfl⟩

/-- What a create call can touch: everything except the StagedTransaction is
preserved, in every branch. -/
theorem create_transaction_stream_preserves (g : GState) (pid : Pubkey)
    (accs : List TransactionAccount) (data s : List Nat) :
    (create_transaction_stream g pid accs data s).state.txn_count = g.txn_count ∧
    (create_transaction_stream g pid accs data s).state.config = g.config ∧
    (create_transaction_stream g pid accs data s).state.config_initialized = g.config_initialized ∧
    (create_transaction_stream g pid accs data s).state.txn_status = g.txn_status ∧
    (create_transaction_stream g pid accs data s).state.data_storage = g.data_storage ∧
    (create_transaction_stream g pid accs data s).state.emitter_acc = g.emitter_acc := by
  unfold create_transaction_stream
  split
  · exact ⟨rfl, rfl, rfl, rfl, rfl, rfl⟩
  · rw [create_transaction_stream_checks_state]
    exact ⟨rfl, rfl, rfl, rfl, rfl, rfl⟩

theorem create_transaction_cancel_preserves (g : GState) (pid : Pubkey)
    (accs : List TransactionAccount) (data s : List Nat) :
    (create_transaction_cancel g pid accs data s).state.txn_count = g.txn_count ∧
    (create_transaction_cancel g pid accs data s).state.config = g.config ∧
    (create_transaction_cancel g pid accs data s).state.config_initialized = g.config_initialized ∧
    (create_transaction_cancel g pid accs data s).state.txn_status = g.txn_status ∧
    (create_transaction_cancel g pid accs data s).state.data_storage = g.data_storage ∧
    (create_transaction_cancel g pid accs data s).state.emitter_acc = g.emitter_acc := by
  unfold create_transaction_cancel
  split
  · exact ⟨rfl, rfl, rfl, rfl, rfl, rfl⟩
  · rw [create_transaction_cancel_checks_state]
    exact ⟨rfl, rfl, rfl, rfl, rfl, rfl⟩

theorem create_transaction_receiver_withdraw_preserves (g : GState) (pid : Pubkey)
    (accs : List TransactionAccount) (data s : List Nat) :
    (create_transaction_receiver_withdraw g pid accs data s).state.txn_count = g.txn_count ∧
    (create_transaction_receiver_withdraw g pid accs data s).state.config = g.config ∧
    (create_transaction_receiver_withdraw g pid accs data s).state.config_initialized =
      g.config_initialized ∧
    (create_transaction_receiver_withdraw g pid accs data s).state.txn_status = g.txn_status ∧
    (create_transaction_receiver_withdraw g pid accs data s).state.data_storage = g.data_storage ∧
    (create_transaction_receiver_withdraw g pid accs data s).state.emitter_acc = g.emitter_acc := by
  unfold create_transaction_receiver_withdraw
  split
  · exact ⟨rfl, rfl, rfl, rfl, rfl, rfl⟩
  · rw [create_transaction_receiver_withdraw_checks_state]
    exact ⟨rfl, rfl, rfl, rfl, rfl, rfl⟩

theorem create_transaction_sender_withdraw_preserves (g : GState) (pid : Pubkey)
    (accs : List TransactionAccount) (data s : List Nat) :
    (create_transaction_sender_withdraw g pid accs data s).state.txn_count = g.txn_count ∧
    (create_transaction_sender_withdraw g pid accs data s).state.config = g.config ∧
    (create_transaction_sender_withdraw g pid accs data s).state.config_initialized =
      g.config_initialized ∧
    (create_transaction_sender_withdraw g pid accs data s).state.txn_status = g.txn_status ∧
    (create_transaction_sender_withdraw g pid accs data s).state.data_storage = g.data_storage ∧
    (create_transaction_sender_withdraw g pid accs data s).state.emitter_acc = g.emitter_acc := by
  unfold create_transaction_sender_withdraw
  split
  · exact ⟨rfl, rfl, rfl, rfl, rfl, rfl⟩
  · rw [create_transaction_sender_withdraw_checks_state]
    exact ⟨rfl, rfl, rfl, rfl, rfl, rfl⟩

theorem create_transaction_instant_transfer_preserves (g : GState) (pid : Pubkey)
    (accs : List TransactionAccount) (data s : List Nat) :
    (create_transaction_instant_transfer g pid accs data s).state.txn_count = g.txn_count ∧
    (create_transaction_instant_transfer g pid accs data s).state.config = g.config ∧
    (create_transaction_instant_transfer g pid accs data s).state.config_initialized =
      g.config_initialized ∧
    (create_transaction_instant_transfer g pid accs data s).state.txn_status = g.txn_status ∧
    (create_transaction_instant_transfer g pid accs data s).state.data_storage = g.data_storage ∧
    (create_transaction_instant_transfer g pid accs data s).state.emitter_acc = g.emitter_acc := by
  unfold create_transaction_instant_transfer
  split
  · exact ⟨rfl, rfl, rfl, rfl, rfl, rfl⟩
  · rw [create_transaction_instant_transfer_checks_state]
    exact ⟨rfl, rfl, rfl, rfl, rfl, rfl⟩

theorem transaction_deposit_preserves (g : GState) (pid : Pubkey)
    (accs : List TransactionAccount) (data c s : List Nat) (p : Pubkey) (ext : Bool) :
    (transaction_deposit g pid accs data c s p ext).state.txn_count = g.txn_count ∧
    (transaction_deposit g pid accs data c s p ext).state.config = g.config ∧
    (transaction_deposit g pid accs data c s p ext).state.config_initialized =
      g.config_initialized ∧
    (transaction_deposit g pid accs data c s p ext).state.txn_status = g.txn_status ∧
    (transaction_deposit g pid accs data c s p ext).state.data_storage = g.data_storage ∧
    (transaction_deposit g pid accs data c s p ext).state.emitter_acc = g.emitter_acc := by
  unfold transaction_deposit
  split
  · exact ⟨rfl, rfl, rfl, rfl, rfl, rfl⟩
  · obtain ⟨t, ht⟩ := transaction_deposit_checks_tx_only
      (stageTx g pid accs data g.transaction.did_execute) accs data c s p ext
    rw [ht]
    exact ⟨rfl, rfl, rfl, rfl, rfl, rfl⟩

theorem transaction_stream_update_preserves (g : GState) (pid : Pubkey)
    (accs : List TransactionAccount) (data c s : List Nat) (p : Pubkey) (ext : Bool) :
    (transaction_stream_update g pid accs data c s p ext).state.txn_count = g.txn_count ∧
    (transaction_stream_update g pid accs data c s p ext).state.config = g.config ∧
    (transaction_stream_update g pid accs data c s p ext).state.config_initialized =
      g.config_initialized ∧
    (transaction_stream_update g pid accs data c s p ext).state.txn_status = g.txn_status ∧
    (transaction_stream_update g pid accs data c s p ext).state.data_storage = g.data_storage ∧
    (transaction_stream_update g pid accs data c s p ext).state.emitter_acc = g.emitter_acc := by
  unfold transaction_stream_update
  split
  · exact ⟨rfl, rfl, rfl, rfl, rfl, rfl⟩
  · obtain ⟨t, ht⟩ := transaction_stream_update_checks_tx_only
      (stageTx g pid accs data g.transaction.did_execute) accs data c s p ext
    rw [ht]
    exact ⟨rfl, rfl, rfl, rfl, rfl, rfl⟩

theorem transaction_pause_resume_preserves (g : GState) (pid : Pubkey)
    (accs : List TransactionAccount) (data c s : List Nat) (p : Pubkey) (ext : Bool) :
    (transaction_pause_resume g pid accs data c s p ext).state.txn_count = g.txn_count ∧
    (transaction_pause_resume g pid accs data c s p ext).state.config = g.config ∧
    (transaction_pause_resume g pid accs data c s p ext).state.config_initialized =
      g.config_initialized ∧
    (transaction_pause_resume g pid accs data c s p ext).state.txn_status = g.txn_status ∧
    (transaction_pause_resume g pid accs data c s p ext).state.data_storage = g.data_storage ∧
    (transaction_pause_resume g pid accs data c s p ext).state.emitter_acc = g.emitter_acc := by
  unfold transaction_pause_resume
  split
  · exact ⟨rfl, rfl, rfl, rfl, rfl, rfl⟩
  · obtain ⟨t, ht⟩ := transaction_pause_resume_checks_tx_only
      (stageTx g pid accs data g.transaction.did_execute) accs c s p ext
    rw [ht]
    exact ⟨rfl, rfl, rfl, rfl, rfl, rfl⟩

theorem execute_transaction_preserves (g : GState) (e c : List Nat) (p : Pubkey) (ext : Bool) :
    (execute_transaction g e c p ext).state.txn_count = g.txn_count ∧
    (execute_transaction g e c p ext).state.config = g.config ∧
    (execute_transaction g e c p ext).state.config_initialized = g.config_initialized ∧
    (execute_transaction g e c p ext).state.data_storage = g.data_storage ∧
    (execute_transaction g e c p ext).state.emitter_acc = g.emitter_acc := by
  unfold execute_transaction burn_and_invoke
  repeat' split
  all_goals exact ⟨rfl, rfl, rfl, rfl, rfl⟩

theorem transfer_tail_preserves (g : GState) (r : List Nat) (z : Pubkey) (ext : Bool) :
    (transfer_tail g r z ext).state.txn_count = g.txn_count ∧
    (transfer_tail g r z ext).state.config_initialized = g.config_initialized ∧
    (transfer_tail g r z ext).state.txn_status = g.txn_status ∧
    (transfer_tail g r z ext).state.transaction = g.transaction ∧
    (transfer_tail g r z ext).state.data_storage = g.data_storage ∧
    (transfer_tail g r z ext).state.emitter_acc = g.emitter_acc ∧
    (transfer_tail g r z ext).state.config.owner = g.config.owner := by
  unfold transfer_tail
  repeat' split
  all_goals exact ⟨rfl, rfl, rfl, rfl, rfl, rfl, rfl⟩

theorem transaction_direct_transfer_native_preserves (g : GState) (s c : List Nat)
    (tc f : Nat) (mk pk z : Pubkey) (ext : Bool) :
    (transaction_direct_transfer_native g s c tc f mk pk z ext).state.txn_count = g.txn_count ∧
    (transaction_direct_transfer_native g s c tc f mk pk z ext).state.config_initialized =
      g.config_initialized ∧
    (transaction_direct_transfer_native g s c tc f mk pk z ext).state.transaction =
      g.transaction ∧
    (transaction_direct_transfer_native g s c tc f mk pk z ext).state.data_storage =
      g.data_storage ∧
    (transaction_direct_transfer_native g s c tc f mk pk z ext).state.emitter_acc =
      g.emitter_acc := by
  unfold transaction_direct_transfer_native transaction_direct_transfer_native_checks
    transfer_native
  repeat' split
  all_goals
    first
    | exact ⟨rfl, rfl, rfl, rfl, rfl⟩
    | (rename_i hs
       exact ⟨(transfer_tail_preserves ..).1, (transfer_tail_preserves ..).2.1,
         (transfer_tail_preserves ..).2.2.2.1, (transfer_tail_preserves ..).2.2.2.2.1,
         (transfer_tail_preserves ..).2.2.2.2.2.1⟩)

theorem transaction_direct_transfer_wrapped_preserves (g : GState) (s c : List Nat)
    (tc f : Nat) (pk z : Pubkey) (ext : Bool) :
    (transaction_direct_transfer_wrapped g s c tc f pk z ext).state.txn_count = g.txn_count ∧
    (transaction_direct_transfer_wrapped g s c tc f pk z ext).state.config_initialized =
      g.config_initialized ∧
    (transaction_direct_transfer_wrapped g s c tc f pk z ext).state.transaction =
      g.transaction ∧
    (transaction_direct_transfer_wrapped g s c tc f pk z ext).state.data_storage =
      g.data_storage ∧
    (transaction_direct_transfer_wrapped g s c tc f pk z ext).state.emitter_acc =
      g.emitter_acc := by
  unfold transaction_direct_transfer_wrapped transaction_direct_transfer_wrapped_checks
    transfer_wrapped
  repeat' split
  all_goals
    first
    | exact ⟨rfl, rfl, rfl, rfl, rfl⟩
    | (rename_i hs
       exact ⟨(transfer_tail_preserves ..).1, (transfer_tail_preserves ..).2.1,
         (transfer_tail_preserves ..).2.2.2.1, (transfer_tail_preserves ..).2.2.2.2.1,
         (transfer_tail_preserves ..).2.2.2.2.2.1⟩)

theorem register_chain_preserves (g : GState) (c : Nat) (a : String) :
    (register_chain g c a).state.txn_count = g.txn_count ∧
    (register_chain g c a).state.config = g.config ∧
    (register_chain g c a).state.config_initialized = g.config_initialized ∧
    (register_chain g c a).state.txn_status = g.txn_status ∧
    (register_chain g c a).state.transaction = g.transaction ∧
    (register_chain g c a).state.data_storage = g.data_storage := by
  unfold register_chain
  repeat' split
  all_goals exact ⟨rfl, rfl, rfl, rfl, rfl, rfl⟩

theorem init_cfg_preserves (g : GState) (o : Pubkey) :
    (init_cfg g o).state.txn_count = g.txn_count ∧
    (init_cfg g o).state.txn_status = g.txn_status ∧
    (init_cfg g o).state.transaction = g.transaction ∧
    (init_cfg g o).state.data_storage = g.data_storage ∧
    (init_cfg g o).state.emitter_acc = g.emitter_acc := by
  unfold init_cfg
  repeat' split
  all_goals exact ⟨rfl, rfl, rfl, rfl, rfl⟩

theorem transfer_tail_nonce (g : GState) (r : List Nat) (z : Pubkey) (ext : Bool) :
    (transfer_tail g r z ext).state.config.nonce = g.config.nonce ∨
      (transfer_tail g r z ext).state.config.nonce = g.config.nonce + 1 := by
  unfold transfer_tail
  split
  · split
    · split
      · split
        case h_1 => exact Or.inl rfl
        case h_2 v hv =>
          right
          unfold checkedAdd64 at hv
          split at hv
          · simp [eOk]
            exact (Option.some.injEq _ _ ▸ hv).symm
          · cases hv
      · exact Or.inl rfl
    · exact Or.inl rfl
  · exact Or.inl rfl

theorem transfer_tail_success_nonce (g : GState) (r : List Nat) (z : Pubkey) (ext : Bool)
    (h : (transfer_tail g r z ext).error = none) :
    (transfer_tail g r z ext).state.config.nonce = g.config.nonce + 1 := by
  unfold transfer_tail at h ⊢
  split at h
  case isFalse => simp [eFail] at h
  case isTrue h1 =>
    split at h
    case isFalse => simp at h
    case isTrue h2 =>
      split at h
      case isFalse => simp [eCrash] at h
      case isTrue h3 =>
        split at h
        case h_1 => simp [eFail] at h
        case h_2 v hv =>
          simp [h1, h2, h3, hv, eOk]
          unfold checkedAdd64 at hv
          split at hv
          · exact (Option.some.injEq _ _ ▸ hv).symm
          · cases hv

theorem step_of_error (g : GState) (o : Op) (ext : Bool) (e : ProgError)
    (he : (applyOp g o ext).error = some e) : step g o ext = g := by
  simp [step, commitOut, he]

theorem step_of_ok (g : GState) (o : Op) (ext : Bool)
    (he : (applyOp g o ext).error = none) : step g o ext = (applyOp g o ext).state := by
  simp [step, commitOut, he]

theorem transaction_direct_transfer_native_nonce (g : GState) (s c : List Nat)
    (tc f : Nat) (mk pk z : Pubkey) (ext : Bool) :
    (transaction_direct_transfer_native g s c tc f mk pk z ext).state.config.nonce =
      g.config.nonce ∨
    (transaction_direct_transfer_native g s c tc f mk pk z ext).state.config.nonce =
      g.config.nonce + 1 := by
  unfold transaction_direct_transfer_native transaction_direct_transfer_native_checks
    transfer_native
  repeat' split
  all_goals first
    | exact Or.inl rfl
    | exact transfer_tail_nonce ..

theorem transaction_direct_transfer_wrapped_nonce (g : GState) (s c : List Nat)
    (tc f : Nat) (pk z : Pubkey) (ext : Bool) :
    (transaction_direct_transfer_wrapped g s c tc f pk z ext).state.config.nonce =
      g.config.nonce ∨
    (transaction_direct_transfer_wrapped g s c tc f pk z ext).state.config.nonce =
      g.config.nonce + 1 := by
  unfold transaction_direct_transfer_wrapped transaction_direct_transfer_wrapped_checks
    transfer_wrapped
  repeat' split
  all_goals first
    | exact Or.inl rfl
    | exact transfer_tail_nonce ..

/-- Counters never decrease across any committed entrypoint invocation (nonce
is guarded only after the Configuration account exists). -/
theorem step_counters (g : GState) (o : Op) (ext : Bool) (hi : g.config_initialized = true) :
    g.txn_count.count ≤ (step g o ext).txn_count.count ∧
    g.config.nonce ≤ (step g o ext).config.nonce := by
  cases ho : (applyOp g o ext).error with
  | some e =>
    rw [step_of_error g o ext e ho]
    exact ⟨le_refl _, le_refl _⟩
  | none =>
    rw [step_of_ok g o ext ho]
    cases o with
    | opInit owner =>
      exfalso
      simp [applyOp, init_cfg, hi] at ho
    | opRegisterChain c a =>
      have h := register_chain_preserves g c a
      constructor
      · show g.txn_count.count ≤ (register_chain g c a).state.txn_count.count
        rw [h.1]
      · show g.config.nonce ≤ (register_chain g c a).state.config.nonce
        rw [h.2.1]
    | opStoreMsg vaa k s =>
      have hf := store_msg_frame g vaa k s
      unfold OnlyDSCount at hf
      have hc := store_msg_success_count g vaa k s ho
      constructor
      · show g.txn_count.count ≤ (store_msg g vaa k s).state.txn_count.count
        rw [hc.2]
        omega
      · show g.config.nonce ≤ (store_msg g vaa k s).state.config.nonce
        rw [hf]
    | opTransactionDeposit pid accs data c s p =>
      have h := transaction_deposit_preserves g pid accs data c s p ext
      constructor
      · show g.txn_count.count ≤ (transaction_deposit g pid accs data c s p ext).state.txn_count.count
        rw [h.1]
      · show g.config.nonce ≤ (transaction_deposit g pid accs data c s p ext).state.config.nonce
        rw [h.2.1]
    | opCreateStream pid accs data s =>
      have h := create_transaction_stream_preserves g pid accs data s
      constructor
      · show g.txn_count.count ≤ (create_transaction_stream g pid accs data s).state.txn_count.count
        rw [h.1]
      · show g.config.nonce ≤ (create_transaction_stream g pid accs data s).state.config.nonce
        rw [h.2.1]
    | opTransactionStreamUpdate pid accs data c s p =>
      have h := transaction_stream_update_preserves g pid accs data c s p ext
      constructor
      · show g.txn_count.count ≤
          (transaction_stream_update g pid accs data c s p ext).state.txn_count.count
        rw [h.1]
      · show g.config.nonce ≤
          (transaction_stream_update g pid accs data c s p ext).state.config.nonce
        rw [h.2.1]
    | opTransactionPauseResume pid accs data c s p =>
      have h := transaction_pause_resume_preserves g pid accs data c s p ext
      constructor
      · show g.txn_count.count ≤
          (transaction_pause_resume g pid accs data c s p ext).state.txn_count.count
        rw [h.1]
      · show g.config.nonce ≤
          (transaction_pause_resume g pid accs data c s p ext).state.config.nonce
        rw [h.2.1]
    | opCreateReceiverWithdraw pid accs data s =>
      have h := create_transaction_receiver_withdraw_preserves g pid accs data s
      constructor
      · show g.txn_count.count ≤
          (create_transaction_receiver_withdraw g pid accs data s).state.txn_count.count
        rw [h.1]
      · show g.config.nonce ≤
          (create_transaction_receiver_withdraw g pid accs data s).state.config.nonce
        rw [h.2.1]
    | opCreateCancel pid accs data s =>
      have h := create_transaction_cancel_preserves g pid accs data s
      constructor
      · show g.txn_count.count ≤
          (create_transaction_cancel g pid accs data s).state.txn_count.count
        rw [h.1]
      · show g.config.nonce ≤ (create_transaction_cancel g pid accs data s).state.config.nonce
        rw [h.2.1]
    | opCreateSenderWithdraw pid accs data s =>
      have h := create_transaction_sender_withdraw_preserves g pid accs data s
      constructor
      · show g.txn_count.count ≤
          (create_transaction_sender_withdraw g pid accs data s).state.txn_count.count
        rw [h.1]
      · show g.config.nonce ≤
          (create_transaction_sender_withdraw g pid accs data s).state.config.nonce
        rw [h.2.1]
    | opCreateInstantTransfer pid accs data s =>
      have h := create_transaction_instant_transfer_preserves g pid accs data s
      constructor
      · show g.txn_count.count ≤
          (create_transaction_instant_transfer g pid accs data s).state.txn_count.count
        rw [h.1]
      · show g.config.nonce ≤
          (create_transaction_instant_transfer g pid accs data s).state.config.nonce
        rw [h.2.1]
    | opDirectTransferNative s c tc f mk pk z =>
      have h := transaction_direct_transfer_native_preserves g s c tc f mk pk z ext
      have hn := transaction_direct_transfer_native_nonce g s c tc f mk pk z ext
      constructor
      · show g.txn_count.count ≤
          (transaction_direct_transfer_native g s c tc f mk pk z ext).state.txn_count.count
        rw [h.1]
      · show g.config.nonce ≤
          (transaction_direct_transfer_native g s c tc f mk pk z ext).state.config.nonce
        rcases hn with h2 | h2 <;> rw [h2] <;> omega
    | opDirectTransferWrapped s c tc f pk z =>
      have h := transaction_direct_transfer_wrapped_preserves g s c tc f pk z ext
      have hn := transaction_direct_transfer_wrapped_nonce g s c tc f pk z ext
      constructor
      · show g.txn_count.count ≤
          (transaction_direct_transfer_wrapped g s c tc f pk z ext).state.txn_count.count
        rw [h.1]
      · show g.config.nonce ≤
          (transaction_direct_transfer_wrapped g s c tc f pk z ext).state.config.nonce
        rcases hn with h2 | h2 <;> rw [h2] <;> omega
    | opExecuteTransaction e c p =>
      have h := execute_transaction_preserves g e c p ext
      constructor
      · show g.txn_count.count ≤ (execute_transaction g e c p ext).state.txn_count.count
        rw [h.1]
      · show g.config.nonce ≤ (execute_transaction g e c p ext).state.config.nonce
        rw [h.2.1]
    | opTransferNative s c tc f r z =>
      have h := transfer_tail_preserves g r z ext
      have hn := transfer_tail_nonce g r z ext
      constructor
      · show g.txn_count.count ≤ (transfer_tail g r z ext).state.txn_count.count
        rw [h.1]
      · show g.config.nonce ≤ (transfer_tail g r z ext).state.config.nonce
        rcases hn with h2 | h2 <;> rw [h2] <;> omega
    | opTransferWrapped s c tc f r z =>
      have h := transfer_tail_preserves g r z ext
      have hn := transfer_tail_nonce g r z ext
      constructor
      · show g.txn_count.count ≤ (transfer_tail g r z ext).state.txn_count.count
        rw [h.1]
      · show g.config.nonce ≤ (transfer_tail g r z ext).state.config.nonce
        rcases hn with h2 | h2 <;> rw [h2] <;> omega

/-- Once the ExecutionStatus latch is set, no committed invocation can clear
it or change the did_execute latch: every flag-writing entrypoint is guarded
by the latch and fails, and the remaining entrypoints never touch the two
accounts. -/
theorem step_flags (g : GState) (o : Op) (ext : Bool) (h : g.txn_status.executed = true) :
    (step g o ext).txn_status.executed = true ∧
    (step g o ext).transaction.did_execute = g.transaction.did_execute := by
  cases ho : (applyOp g o ext).error with
  | some e =>
    rw [step_of_error g o ext e ho]
    exact ⟨h, rfl⟩
  | none =>
    rw [step_of_ok g o ext ho]
    cases o with
    | opInit owner =>
      have hp := init_cfg_preserves g owner
      constructor
      · show (init_cfg g owner).state.txn_status.executed = true
        rw [hp.2.1]
        exact h
      · show (init_cfg g owner).state.transaction.did_execute = g.transaction.did_execute
        rw [hp.2.2.1]
    | opRegisterChain c a =>
      have hp := register_chain_preserves g c a
      constructor
      · show (register_chain g c a).state.txn_status.executed = true
        rw [hp.2.2.2.1]
        exact h
      · show (register_chain g c a).state.transaction.did_execute = g.transaction.did_execute
        rw [hp.2.2.2.2.1]
    | opStoreMsg vaa k s =>
      have hf := store_msg_frame g vaa k s
      unfold OnlyDSCount at hf
      constructor
      · show (store_msg g vaa k s).state.txn_status.executed = true
        rw [hf]
        exact h
      · show (store_msg g vaa k s).state.transaction.did_execute = g.transaction.did_execute
        rw [hf]
    | opTransactionDeposit pid accs data c s p =>
      exfalso
      simp [applyOp, transaction_deposit, h, eFail] at ho
    | opCreateStream pid accs data s =>
      exfalso
      simp [applyOp, create_transaction_stream, h, eFail] at ho
    | opTransactionStreamUpdate pid accs data c s p =>
      exfalso
      simp [applyOp, transaction_stream_update, h, eFail] at ho
    | opTransactionPauseResume pid accs data c s p =>
      exfalso
      simp [applyOp, transaction_pause_resume, h, eFail] at ho
    | opCreateReceiverWithdraw pid accs data s =>
      exfalso
      simp [applyOp, create_transaction_receiver_withdraw, h, eFail] at ho
    | opCreateCancel pid accs data s =>
      exfalso
      simp [applyOp, create_transaction_cancel, h, eFail] at ho
    | opCreateSenderWithdraw pid accs data s =>
      exfalso
      simp [applyOp, create_transaction_sender_withdraw, h, eFail] at ho
    | opCreateInstantTransfer pid accs data s =>
      exfalso
      simp [applyOp, create_transaction_instant_transfer, h, eFail] at ho
    | opDirectTransferNative s c tc f mk pk z =>
      exfalso
      simp [applyOp, transaction_direct_transfer_native, h, eFail] at ho
    | opDirectTransferWrapped s c tc f pk z =>
      exfalso
      simp [applyOp, transaction_direct_transfer_wrapped, h, eFail] at ho
    | opExecuteTransaction e c p =>
      exfalso
      simp [applyOp, execute_transaction, h, eFail] at ho
    | opTransferNative s c tc f r z =>
      have hp := transfer_tail_preserves g r z ext
      constructor
      · show (transfer_tail g r z ext).state.txn_status.executed = true
        rw [hp.2.2.1]
        exact h
      · show (transfer_tail g r z ext).state.transaction.did_execute = g.transaction.did_execute
        rw [hp.2.2.2.1]
    | opTransferWrapped s c tc f r z =>
      have hp := transfer_tail_preserves g r z ext
      constructor
      · show (transfer_tail g r z ext).state.txn_status.executed = true
        rw [hp.2.2.1]
        exact h
      · show (transfer_tail g r z ext).state.transaction.did_execute = g.transaction.did_execute
        rw [hp.2.2.2.1]

/-- The latch invariant over arbitrary committed invocation sequences. -/
theorem stepList_flags (l : List (Op × Bool)) (g : GState)
    (h : g.txn_status.executed = true) :
    (stepList g l).txn_status.executed = true ∧
    (stepList g l).transaction.did_execute = g.transaction.did_execute := by
  induction l generalizing g with
  | nil => exact ⟨h, rfl⟩
  | cons p t ih =>
    have hs := step_flags g p.1 p.2 h
    have iht := ih (step g p.1 p.2) hs.1
    refine ⟨?_, ?_⟩
    · show (stepList (step g p.1 p.2) t).txn_status.executed = true
      exact iht.1
    · show (stepList (step g p.1 p.2) t).transaction.did_execute = g.transaction.did_execute
      rw [iht.2, hs.2]

/-- C1 (amended): once an execute has succeeded (both latches true), the
latches never revert across any sequence of committed invocations, and every
subsequent execute attempt on the record fails with
TransactionAlreadyExecuted — the error raised by the ExecutionStatus guard,
which fires before the AlreadyExecuted check — without attempting the
downstream invocation and without changing the committed state; a successful
execute does set both latches. -/
theorem C1_one_shot (g : GState) (hexec : g.txn_status.executed = true) :
    (∀ l : List (Op × Bool), (stepList g l).txn_status.executed = true ∧
      (stepList g l).transaction.did_execute = g.transaction.did_execute) ∧
    (∀ (l : List (Op × Bool)) (e c : List Nat) (p : Pubkey) (ext : Bool),
      (execute_transaction (stepList g l) e c p ext).error =
        some (.msgErr .TransactionAlreadyExecuted) ∧
      (execute_transaction (stepList g l) e c p ext).cpi = none ∧
      step (stepList g l) (.opExecuteTransaction e c p) ext = stepList g l) ∧
    (∀ (g0 : GState) (e c : List Nat) (p : Pubkey) (ext : Bool),
      (execute_transaction g0 e c p ext).error = none →
      (execute_transaction g0 e c p ext).state.txn_status.executed = true ∧
      (execute_transaction g0 e c p ext).state.transaction.did_execute = true) := by
  refine ⟨fun l => stepList_flags l g hexec, ?_, ?_⟩
  · intro l e c p ext
    have hl := (stepList_flags l g hexec).1
    refine ⟨?_, ?_, ?_⟩
    · simp [execute_transaction, hl, eFail]
    · simp [execute_transaction, hl, eFail]
    · apply step_of_error _ _ _ (.msgErr .TransactionAlreadyExecuted)
      show (execute_transaction (stepList g l) e c p ext).error = _
      simp [execute_transaction, hl, eFail]
  · intro g0 e c p ext hok
    unfold execute_transaction at hok
    split at hok
    case isTrue => simp [eFail] at hok
    case isFalse h1 =>
      split at hok
      case isTrue => simp [eFail] at hok
      case isFalse h2 =>
        cases ext with
        | false => simp [burn_and_invoke] at hok
        | true =>
          constructor
          · show (execute_transaction g0 e c p true).state.txn_status.executed = true
            simp [execute_transaction, h1, h2, burn_and_invoke]
          · show (execute_transaction g0 e c p true).state.transaction.did_execute = true
            simp [execute_transaction, h1, h2, burn_and_invoke]

/-- C1 counterexample: after a successful execute, the second execute fails
with TransactionAlreadyExecuted, not with AlreadyExecuted as the claim
states. -/
theorem C1_counterexample :
    (execute_transaction gHex senderA [50] mintKeyA true).error = none ∧
    (execute_transaction (step gHex (.opExecuteTransaction senderA [50] mintKeyA) true)
      senderA [50] mintKeyA true).error = some (.msgErr .TransactionAlreadyExecuted) ∧
    (execute_transaction (step gHex (.opExecuteTransaction senderA [50] mintKeyA) true)
      senderA [50] mintKeyA true).error ≠ some (.msgErr .AlreadyExecuted) := by
  decide

/-- C1 witness: the state after a successful execute; the next attempt fails
with TransactionAlreadyExecuted and performs no downstream invocation. -/
theorem C1_one_shot_witness :
    (execute_transaction
      (stepList (step gHex (.opExecuteTransaction senderA [50] mintKeyA) true) [])
      senderA [50] mintKeyA true).error = some (.msgErr .TransactionAlreadyExecuted) ∧
    (execute_transaction
      (stepList (step gHex (.opExecuteTransaction senderA [50] mintKeyA) true) [])
      senderA [50] mintKeyA true).cpi = none :=
  ⟨((C1_one_shot (step gHex (.opExecuteTransaction senderA [50] mintKeyA) true)
      (by decide)).2.1 [] senderA [50] mintKeyA true).1,
    ((C1_one_shot (step gHex (.opExecuteTransaction senderA [50] mintKeyA) true)
      (by decide)).2.1 [] senderA [50] mintKeyA true).2.1⟩

/-- C8: the TransactionCounter increments by exactly 1 on every accepted
inbound message and the nonce by exactly 1 on every successful outbound
transfer; neither ever decreases across any committed invocation; an
increment attempted at u64::MAX fails with Overflow and commits no change. -/
theorem C8_counters (g : GState) (vaa : MessageData) (k : Pubkey) (s : List Nat)
    {rb cb : List Nat}
    (hi : g.config_initialized = true)
    (hreg : hexDecode g.emitter_acc.emitter_addr = some rb) :
    ((store_msg g vaa k s).error = none →
      (commitOut g (store_msg g vaa k s)).txn_count.count = g.txn_count.count + 1) ∧
    (∀ o ext, g.txn_count.count ≤ (step g o ext).txn_count.count ∧
      g.config.nonce ≤ (step g o ext).config.nonce) ∧
    (g.txn_count.count = 2 ^ 64 - 1 → k = vaa_key_of vaa →
      vaa.emitter_chain = g.emitter_acc.chain_id → vaa.emitter_address = rb →
      sliceChecked vaa.payload 0 1 = some cb →
      (store_msg g vaa k s).error = some (.msgErr .Overflow) ∧
      commitOut g (store_msg g vaa k s) = g) ∧
    (∀ sc tc f r z ext,
      ((transfer_native g s sc tc f r z ext).error = none →
        (commitOut g (transfer_native g s sc tc f r z ext)).config.nonce =
          g.config.nonce + 1) ∧
      (g.config.nonce = 2 ^ 64 - 1 → g.config.owner = z → ext = true → r.length = 32 →
        (transfer_native g s sc tc f r z ext).error = some (.msgErr .Overflow) ∧
        commitOut g (transfer_native g s sc tc f r z ext) = g)) := by
  refine ⟨?_, fun o ext => step_counters g o ext hi, ?_, ?_⟩
  · intro h
    have hc := store_msg_success_count g vaa k s h
    have hcm : commitOut g (store_msg g vaa k s) = (store_msg g vaa k s).state := by
      simp [commitOut, h]
    rw [hcm, hc.2]
  · intro hmax hk hchain haddr hslice
    have hadd : checkedAdd64 g.txn_count.count = none := by
      unfold checkedAdd64
      rw [if_neg]
      omega
    have he : (store_msg g vaa k s).error = some (.msgErr .Overflow) := by
      simp [store_msg, hk, hchain, hreg, haddr, hslice, hadd, eFail]
    exact ⟨he, by simp [commitOut, he]⟩
  · intro sc tc f r z ext
    constructor
    · intro h
      have hn := transfer_tail_success_nonce g r z ext h
      have hcm : commitOut g (transfer_native g s sc tc f r z ext) =
          (transfer_tail g r z ext).state := by
        simp [commitOut, transfer_native]
        simp [transfer_native] at h
        simp [h]
      rw [hcm, hn]
    · intro hmax howner hext hlen
      have hadd : checkedAdd64 g.config.nonce = none := by
        unfold checkedAdd64
        rw [if_neg]
        omega
      have he : (transfer_native g s sc tc f r z ext).error = some (.msgErr .Overflow) := by
        subst hext
        simp [transfer_native, transfer_tail, howner, hlen, hadd, eFail]
      exact ⟨he, by simp [commitOut, he]⟩

/-- C8 witness: at counter value u64::MAX the otherwise-valid deposit
message fails with Overflow and commits nothing. -/
theorem C8_counters_witness :
    (store_msg { gHex with txn_count := ⟨2 ^ 64 - 1⟩ } vaaDep6
      (vaa_key_of vaaDep6) senderA).error = some (.msgErr .Overflow) ∧
    commitOut { gHex with txn_count := ⟨2 ^ 64 - 1⟩ }
      (store_msg { gHex with txn_count := ⟨2 ^ 64 - 1⟩ } vaaDep6
        (vaa_key_of vaaDep6) senderA) = { gHex with txn_count := ⟨2 ^ 64 - 1⟩ } :=
  (@C8_counters { gHex with txn_count := ⟨2 ^ 64 - 1⟩ } vaaDep6
    (vaa_key_of vaaDep6) senderA regBytesA [6] (by decide) (by decide)).2.2.1
    (by decide) rfl (by decide) (by decide) (by decide)

theorem create_transaction_stream_checks_success (g : GState)
    (accs : List TransactionAccount) (data s : List Nat)
    (h : (create_transaction_stream_checks g accs data s).error = none) :
    8 ≤ data.length ∧ ∃ d, decodeStream (data.drop 8) = some d ∧
      d.amount = g.data_storage.amount ∧ d.start_time = g.data_storage.start_time ∧
      d.end_time = g.data_storage.end_time ∧ d.can_cancel = g.data_storage.can_cancel ∧
      d.can_update = g.data_storage.can_update := by
  unfold create_transaction_stream_checks at h
  split at h
  case h_1 => simp [eCrash] at h
  rename_i a9 h9
  split at h
  case isFalse => simp [eFail] at h
  rename_i hmint
  split at h
  case h_1 => simp [eCrash] at h
  rename_i a5 h5
  split at h
  case isFalse => simp [eFail] at h
  rename_i hsend
  split at h
  case h_1 => simp [eCrash] at h
  rename_i a6 h6
  split at h
  case isFalse => simp [eFail] at h
  rename_i hd5
  split at h
  case isFalse => simp [eFail] at h
  rename_i hd6
  split at h
  case isFalse => simp [eCrash] at h
  rename_i hlen
  split at h
  case h_1 => simp at h
  rename_i d hdec
  split at h
  case isFalse => simp [eFail] at h
  rename_i hamt
  split at h
  case isFalse => simp [eFail] at h
  rename_i hst
  split at h
  case isFalse => simp [eFail] at h
  rename_i het
  split at h
  case isFalse => simp [eFail] at h
  rename_i hcc
  split at h
  case isFalse => simp [eFail] at h
  rename_i hcu
  exact ⟨hlen, d, hdec, hamt, hst, het, hcc, hcu⟩

theorem create_transaction_sender_withdraw_checks_success (g : GState)
    (accs : List TransactionAccount) (data s : List Nat)
    (h : (create_transaction_sender_withdraw_checks g accs data s).error = none) :
    8 ≤ data.length ∧ ∃ d, decodeTokenAmount (data.drop 8) = some d ∧
      d.amount = g.data_storage.amount := by
  unfold create_transaction_sender_withdraw_checks at h
  split at h
  case h_1 => simp [eCrash] at h
  rename_i a7 h7
  split at h
  case isFalse => simp [eFail] at h
  rename_i hmint
  split at h
  case h_1 => simp [eCrash] at h
  rename_i a2 h2
  split at h
  case isFalse => simp [eFail] at h
  rename_i hsend
  split at h
  case isFalse => simp [eFail] at h
  rename_i hd2
  split at h
  case isFalse => simp [eCrash] at h
  rename_i hlen
  split at h
  case h_1 => simp at h
  rename_i d hdec
  split at h
  case isFalse => simp [eFail] at h
  rename_i hamt
  exact ⟨hlen, d, hdec, hamt⟩

theorem create_transaction_instant_transfer_checks_success (g : GState)
    (accs : List TransactionAccount) (data s : List Nat)
    (h : (create_transaction_instant_transfer_checks g accs data s).error = none) :
    8 ≤ data.length ∧ ∃ d, decodeTokenAmount (data.drop 8) = some d ∧
      d.amount = g.data_storage.amount := by
  unfold create_transaction_instant_transfer_checks at h
  split at h
  case h_1 => simp [eCrash] at h
  rename_i a8 h8
  split at h
  case isFalse => simp [eFail] at h
  rename_i hmint
  split at h
  case h_1 => simp [eCrash] at h
  rename_i a2 h2
  split at h
  case isFalse => simp [eFail] at h
  rename_i hsend
  split at h
  case h_1 => simp [eCrash] at h
  rename_i a1 h1
  split at h
  case isFalse => simp [eFail] at h
  rename_i hd2
  split at h
  case isFalse => simp [eFail] at h
  rename_i hd1
  split at h
  case isFalse => simp [eCrash] at h
  rename_i hlen
  split at h
  case h_1 => simp at h
  rename_i d hdec
  split at h
  case isFalse => simp [eFail] at h
  rename_i hamt
  exact ⟨hlen, d, hdec, hamt⟩

theorem create_transaction_cancel_checks_error_ds (g g2 : GState)
    (accs : List TransactionAccount) (s : List Nat)
    (hds : g.data_storage = g2.data_storage) :
    (create_transaction_cancel_checks g accs s).error =
      (create_transaction_cancel_checks g2 accs s).error := by
  unfold create_transaction_cancel_checks chainSeedOf
  rw [hds]
  repeat' split
  all_goals rfl

theorem create_transaction_receiver_withdraw_checks_error_ds (g g2 : GState)
    (accs : List TransactionAccount) (s : List Nat)
    (hds : g.data_storage = g2.data_storage) :
    (create_transaction_receiver_withdraw_checks g accs s).error =
      (create_transaction_receiver_withdraw_checks g2 accs s).error := by
  unfold create_transaction_receiver_withdraw_checks chainSeedOf
  rw [hds]
  repeat' split
  all_goals rfl

/-- C4 (amended): of the five create operations, create_transaction_stream,
create_transaction_sender_withdraw and create_transaction_instant_transfer
decode the trailing instruction-data bytes after the 8-byte discriminator
prefix and reject any disagreeing decoded field with the specific mismatch
error; create_transaction_cancel and create_transaction_receiver_withdraw
perform no instruction-data decode or cross-check at all. -/
theorem C4_create_data_cross_check (g : GState) (pid : Pubkey)
    (accs : List TransactionAccount) (data s : List Nat) :
    ((create_transaction_stream g pid accs data s).error = none →
      8 ≤ data.length ∧ ∃ d, decodeStream (data.drop 8) = some d ∧
        d.amount = g.data_storage.amount ∧ d.start_time = g.data_storage.start_time ∧
        d.end_time = g.data_storage.end_time ∧ d.can_cancel = g.data_storage.can_cancel ∧
        d.can_update = g.data_storage.can_update) ∧
    ((create_transaction_sender_withdraw g pid accs data s).error = none →
      8 ≤ data.length ∧ ∃ d, decodeTokenAmount (data.drop 8) = some d ∧
        d.amount = g.data_storage.amount) ∧
    ((create_transaction_instant_transfer g pid accs data s).error = none →
      8 ≤ data.length ∧ ∃ d, decodeTokenAmount (data.drop 8) = some d ∧
        d.amount = g.data_storage.amount) ∧
    (∀ a7 a2 d, g.txn_status.executed = false → accs[7]? = some a7 →
      a7.pubkey = g.data_storage.token_mint → accs[2]? = some a2 →
      s = g.data_storage.sender →
      a2.pubkey = (find_program_address [s, decimalBytes g.data_storage.from_chain_id]
        selfProgramId).1 →
      8 ≤ data.length → decodeTokenAmount (data.drop 8) = some d →
      d.amount ≠ g.data_storage.amount →
      (create_transaction_sender_withdraw g pid accs data s).error =
        some (.msgErr .AmountMismatch)) ∧
    (∀ data2, (create_transaction_cancel g pid accs data s).error =
      (create_transaction_cancel g pid accs data2 s).error) ∧
    (∀ data2, (create_transaction_receiver_withdraw g pid accs data s).error =
      (create_transaction_receiver_withdraw g pid accs data2 s).error) := by
  refine ⟨?_, ?_, ?_, ?_, ?_, ?_⟩
  · intro h
    unfold create_transaction_stream at h
    split at h
    case isTrue => simp [eFail] at h
    case isFalse =>
      exact create_transaction_stream_checks_success
        (stageTx g pid accs data false) accs data s h
  · intro h
    unfold create_transaction_sender_withdraw at h
    split at h
    case isTrue => simp [eFail] at h
    case isFalse =>
      exact create_transaction_sender_withdraw_checks_success
        (stageTx g pid accs data false) accs data s h
  · intro h
    unfold create_transaction_instant_transfer at h
    split at h
    case isTrue => simp [eFail] at h
    case isFalse =>
      exact create_transaction_instant_transfer_checks_success
        (stageTx g pid accs data false) accs data s h
  · intro a7 a2 d hexec h7 hm h2 hs hd2 hlen hdec hne
    subst hs
    simp [create_transaction_sender_withdraw, create_transaction_sender_withdraw_checks,
      stageTx, chainSeedOf, hexec, h7, hm, h2, hd2, hlen, hdec, hne, eFail]
  · intro data2
    unfold create_transaction_cancel
    split
    · rfl
    · exact create_transaction_cancel_checks_error_ds
        (stageTx g pid accs data false) (stageTx g pid accs data2 false) accs s rfl
  · intro data2
    unfold create_transaction_receiver_withdraw
    split
    · rfl
    · exact create_transaction_receiver_withdraw_checks_error_ds
        (stageTx g pid accs data false) (stageTx g pid accs data2 false) accs s rfl

/-- C4 counterexample: create_transaction_cancel (and likewise
create_transaction_receiver_withdraw) succeeds with 3 bytes of instruction
data, which cannot even be sliced past the 8-byte discriminator prefix — the
claimed decode-and-cross-check would have to reject it. -/
theorem C4_counterexample :
    (create_transaction_cancel gHex selfProgramId accsCancel [9, 9, 9] senderA).error = none ∧
    (create_transaction_receiver_withdraw gHex selfProgramId accsCancel [9, 9, 9]
      receiverA).error = none ∧
    ([9, 9, 9] : List Nat).length < 8 := by
  decide

/-- C4 witness: a sender-withdraw whose decoded amount 0 disagrees with the
staged amount 1000 fails with AmountMismatch. -/
theorem C4_create_data_cross_check_witness :
    (create_transaction_sender_withdraw gHex selfProgramId accsSWok
      (List.replicate 16 0) senderA).error = some (.msgErr .AmountMismatch) :=
  (C4_create_data_cross_check gHex selfProgramId accsSWok (List.replicate 16 0)
    senderA).2.2.2.1
    (accOf mintKeyA) (accOf (find_program_address [senderA, decimalBytes 2] selfProgramId).1)
    ⟨0⟩ (by decide) (by decide) (by decide) (by decide) (by decide) (by decide) (by decide)
    (by decide) (by decide)

end Zebec
